import Mathlib

/-!
# Verification of the university-matching rule-evaluation engine

This file gives a shallow embedding, in Lean 4, of the multi-market
rule-evaluation engine of the university-matching backend: the hard-filter
stage, the fallback ladders, the per-dimension scoring functions, the
ranking step and the dispatcher, for the UK, Singapore, Australia and
generic (USA) market pipelines, together with theorems about the
properties the specification claims for them.

Numeric values that are Python `float`/`int` are embedded as `ℚ`/`ℤ`.
Python's `round(x, 2)` (banker's rounding on binary floats) is embedded as
exact round-half-up on rationals; the two agree except at exact half-cent
values, which none of the statements below depend on.  Python's stable
`sorted`/`list.sort` is embedded as a stable insertion sort (`stableSortBy`);
stable sorting by a total preorder is unique, so the two agree.  Python's
`str.lower` and `str.strip` are embedded as the structurally recursive
`lowerStr` and `stripStr` below (they agree with Python on ASCII and on
CJK text, the only text the engine manipulates).
-/

namespace UniMatch

/-! ## Python primitives -/

/-- Python `a in b` on lists of characters: `needle` occurs contiguously in
`hay`. -/
def charsInfix : List Char → List Char → Bool
  | needle, [] => needle.isEmpty
  | needle, c :: rest => needle.isPrefixOf (c :: rest) || charsInfix needle rest

/-- Python `needle in hay` on strings (substring test). -/
def strIn (needle hay : String) : Bool :=
  charsInfix needle.toList hay.toList

/-- Python `s.lower()` (ASCII case mapping, structurally recursive). -/
def lowerStr (s : String) : String := String.mk (s.data.map Char.toLower)

/-- Python `s.strip()`: drop leading and trailing whitespace. -/
def stripStr (s : String) : String :=
  String.mk (((s.data.dropWhile Char.isWhitespace).reverse.dropWhile
    Char.isWhitespace).reverse)

/-- Python `int(q)` on a float: truncation toward zero. -/
def pyInt (q : ℚ) : ℤ :=
  if 0 ≤ q then ⌊q⌋ else -⌊-q⌋

/-- Python `round(q, 2)`: rounding to two decimal places (round half up on
exact rationals; see the module comment). -/
def round2 (q : ℚ) : ℚ :=
  (⌊q * 100 + 1/2⌋ : ℚ) / 100

/-- `round2` is monotone. -/
theorem round2_mono {a b : ℚ} (h : a ≤ b) : round2 a ≤ round2 b := by
  unfold round2
  have hf : (⌊a * 100 + 1/2⌋ : ℤ) ≤ ⌊b * 100 + 1/2⌋ := by
    apply Int.floor_le_floor
    nlinarith
  exact div_le_div_of_nonneg_right (by exact_mod_cast hf) (by norm_num)

/-- `round2` fixes integers (used for the endpoints of score bounds). -/
theorem round2_intCast (n : ℤ) : round2 (n : ℚ) = n := by
  unfold round2
  have h : (⌊(n : ℚ) * 100 + 1/2⌋ : ℤ) = 100 * n := by
    rw [Int.floor_eq_iff]
    constructor
    · push_cast; linarith
    · push_cast; linarith
  rw [h]
  push_cast
  ring

/-! ## A stable sort embedding Python's `sorted` / `list.sort`

Python's sort is stable: records with equal keys keep their original
order.  A stable sort by a total preorder is uniquely determined, so the
structurally recursive insertion sort below is extensionally equal to it
(and, unlike well-founded `List.mergeSort`, it evaluates by `decide`). -/

/-- Insert `x` into `l`, after every element strictly preferred to `x` and
before everything else (stability: `x`, which came earlier in the original
list, stays before elements tied with it). -/
def insertStable (le : α → α → Bool) (x : α) : List α → List α
  | [] => [x]
  | y :: ys => if le y x && !le x y then y :: insertStable le x ys else x :: y :: ys

/-- Stable sort by the total preorder `le` (Python `sorted(l, key=...)`). -/
def stableSortBy (le : α → α → Bool) : List α → List α
  | [] => []
  | x :: xs => insertStable le x (stableSortBy le xs)

theorem mem_insertStable (le : α → α → Bool) (x : α) (l : List α) (a : α) :
    a ∈ insertStable le x l ↔ a = x ∨ a ∈ l := by
  induction l with
  | nil => simp [insertStable]
  | cons y ys ih =>
    rw [insertStable]
    split
    · simp only [List.mem_cons, ih]
      tauto
    · simp only [List.mem_cons]

theorem mem_stableSortBy (le : α → α → Bool) (l : List α) (a : α) :
    a ∈ stableSortBy le l ↔ a ∈ l := by
  induction l with
  | nil => simp [stableSortBy]
  | cons x xs ih =>
    rw [stableSortBy, mem_insertStable]
    simp [ih]

theorem length_insertStable (le : α → α → Bool) (x : α) (l : List α) :
    (insertStable le x l).length = l.length + 1 := by
  induction l with
  | nil => simp [insertStable]
  | cons y ys ih =>
    rw [insertStable]
    split
    · simp [ih]
    · simp

theorem length_stableSortBy (le : α → α → Bool) (l : List α) :
    (stableSortBy le l).length = l.length := by
  induction l with
  | nil => rfl
  | cons x xs ih =>
    rw [stableSortBy, length_insertStable, ih, List.length_cons]

theorem stableSortBy_ne_nil (le : α → α → Bool) {l : List α} (h : l ≠ []) :
    stableSortBy le l ≠ [] := by
  intro hs
  apply h
  have := length_stableSortBy le l
  rw [hs] at this
  exact List.length_eq_zero.mp this.symm

/-- Sortedness of `insertStable`, for a total transitive comparator. -/
theorem pairwise_insertStable (le : α → α → Bool)
    (total : ∀ a b, le a b || le b a) (trans : ∀ a b c, le a b → le b c → le a c)
    (x : α) (l : List α) (h : l.Pairwise (fun a b => le a b = true)) :
    (insertStable le x l).Pairwise (fun a b => le a b = true) := by
  induction l with
  | nil => simp [insertStable]
  | cons y ys ih =>
    rw [insertStable]
    rcases List.pairwise_cons.mp h with ⟨hy, hys⟩
    split
    · next hcond =>
      have hyx : le y x = true := (Bool.and_eq_true _ _).mp hcond |>.1
      refine List.pairwise_cons.mpr ⟨?_, ih hys⟩
      intro b hb
      rcases (mem_insertStable le x ys b).mp hb with hb | hb
      · exact hb ▸ hyx
      · exact hy b hb
    · next hcond =>
      have hxy : le x y = true := by
        rcases Bool.or_eq_true _ _ |>.mp (total x y) with h' | h'
        · exact h'
        · cases hle : le x y
          · exfalso; exact hcond (by simp [h', hle])
          · rfl
      refine List.pairwise_cons.mpr ⟨?_, h⟩
      intro b hb
      rcases List.mem_cons.mp hb with rfl | hb
      · exact hxy
      · exact trans x y b hxy (hy b hb)

/-- The stable sort really sorts, for a total transitive comparator. -/
theorem pairwise_stableSortBy (le : α → α → Bool)
    (total : ∀ a b, le a b || le b a) (trans : ∀ a b c, le a b → le b c → le a c)
    (l : List α) :
    (stableSortBy le l).Pairwise (fun a b => le a b = true) := by
  induction l with
  | nil => simp [stableSortBy]
  | cons x xs ih =>
    rw [stableSortBy]
    exact pairwise_insertStable le total trans x _ ih

/-! ## Data model

`ParentEvaluationInput` (`models/evaluation.py`) is a single pydantic model
shared by all four markets; each pipeline reads its own keys from
`input_data = eval_data.input.dict()` with `input_data.get(key, default)`.
The structure below carries, per key, the value of that read: a key that is
absent (or `None`, which every string default turns into a non-matching
string and every numeric/boolean default into the falsy value) is covered
by the universal quantification over field values. -/
structure Input where
  target_country : String := ""
  -- generic (USA) fields, read as pydantic attributes in `recommend_schools.py`
  gpa_range : String := ""
  activities : List String := []
  interest_fields : List String := []
  school_type_preference : String := ""
  reputation_important : Bool := false
  budget : String := ""
  region_preference : String := ""
  -- fields shared by the AU/UK/SG pipelines
  academic_band : String := "3.6-"
  interests : List String := []
  reputation_vs_value : String := "均衡"
  budget_usd : ℤ := 0
  hard_budget_must_within : Bool := false
  budget_tolerance : String := "0%"
  main_concern : String := "不确定"
  intake_preference : String := "不确定"
  scholarship_importance : String := "不重要"
  -- AU-specific fields
  study_length_preference : String := "不在意"
  wil_preference : String := "不重要"
  psw_importance : String := "一般"
  city_preferences : List String := []
  intl_community_importance : String := "一般"
  english_readiness : String := ""
  accept_language_course : Bool := true
  hard_english_required_exclude : Bool := false
  go8_preference : String := "没有明确偏好"
  career_focus : String := "均衡"
  -- UK-specific fields
  ucas_route : String := "不确定"
  foundation_need : String := "不需要"
  placement_year_pref : String := "不重要"
  russell_pref : String := "中"
  prep_level : String := "中"
  region_pref : String := "不限"
  intl_env_importance : String := "一般"
  oxbridge_must_cover : Bool := false
  accept_foundation : Bool := true
  -- extra keys injected by `create_parent_evaluation` before calling the
  -- explanation generators: `{**input_dict, "_fallback_applied": ..., "_fallback_reason": ...}`
  fallback_applied_key : Bool := false
  fallback_reason_key : String := ""
  -- SG-specific fields
  orientation : String := "均衡"
  bond_acceptance : String := "无所谓"
  interview_portfolio : String := "一般"
  want_double_degree : Bool := false
  want_exchange : Bool := false
  safety_importance : String := "一般"
  tg_must : Bool := false
  hard_refuse_bond : Bool := false
  hard_refuse_interview_or_portfolio : Bool := false
deriving Repr, DecidableEq

/-- A document of the `university_uk` / `university_sg` / `university_au`
Mongo collections, with every field any of the three pipelines reads.
`none` is a missing key; present-but-`None` values are merged into the
missing case whenever the code's `or`-defaulting makes them behave
identically (see the getters below). -/
structure Doc where
  oid : String := ""                -- the Mongo `_id`, read as `str(d.get("_id"))`
  country : Option String := none
  name : String := ""
  rank : Option ℤ := none
  tuition_usd : Option ℤ := none
  city : Option String := none
  strengths : List String := []
  tags : List String := []
  intlRate : Option ℚ := none
  -- UK fields
  ucas_deadline_type : Option String := none
  placement_year_available : Bool := false
  russell_group : Bool := false
  personal_statement_weight : Option ℤ := none
  admissions_tests : Option String := none
  foundation_available : Bool := false
  -- AU fields
  work_integrated_learning : Bool := false
  placement_rate : Option ℚ := none
  group_of_eight : Bool := false
  post_study_visa_years : Option ℚ := none
  requires_english_test : Bool := false
  english_requirements : String := ""
  scholarship_available : Bool := false
  study_length_years : Option ℚ := none
  intakes : Option String := none
  -- SG fields
  tuition_grant_available : Bool := false
  tuition_grant_bond_years : Option ℚ := none
  interview_required : Bool := false
  essay_or_portfolio_required : Bool := false
  industry_links_score : Option ℤ := none
  coop_or_internship_required : Bool := false
  exchange_opportunities_score : Option ℤ := none
  safety_score : Option ℚ := none
deriving Repr, DecidableEq

/-- `str(d.get("country"))`: a missing key renders as `"None"`. -/
def Doc.countryStr (d : Doc) : String := d.country.getD "None"

/-- `int(d.get("rank", 9999) or 9999)`: missing and `0` both yield the
out-of-band sentinel. -/
def Doc.rankVal (d : Doc) : ℤ :=
  match d.rank with
  | some r => if r = 0 then 9999 else r
  | none => 9999

/-- `int(d.get("tuition_usd", 0) or 0)`. -/
def Doc.tuitionVal (d : Doc) : ℤ := d.tuition_usd.getD 0

/-- `int(x.get("tuition_usd", 999999) or 999999)` (bottom-pool sort key). -/
def Doc.tuitionValHigh (d : Doc) : ℤ :=
  match d.tuition_usd with
  | some t => if t = 0 then 999999 else t
  | none => 999999

/-- `(d.get("city") or "")`. -/
def Doc.cityStr (d : Doc) : String := d.city.getD ""

/-- `(d.get("ucas_deadline_type") or "")`, also `str(... or "")`. -/
def Doc.ucasTypeStr (d : Doc) : String := d.ucas_deadline_type.getD ""

/-- `float(x or 0.0)` on an optional numeric field. -/
def rateVal (r : Option ℚ) : ℚ := r.getD 0

/-- The second component of every pipeline's return value:
`fallback_info = {"applied": ..., "steps": [...]}`. -/
structure FallbackInfo where
  applied : Bool
  steps : List String
deriving Repr, DecidableEq

namespace UK

/-! ## `gpt/uk_evaluation.py` -/

/-- `_normalize_list` (list branch): keep entries that are non-empty after
stripping, lowercased and stripped. -/
def _normalize_list (value : List String) : List String :=
  (value.filter (fun s => stripStr s ≠ "")).map (fun s => lowerStr (stripStr s))

/-- The UK `synonym_groups` table, in insertion order. -/
def synonym_groups : List (String × List String) :=
  [("cs", ["cs", "computer science", "it", "software", "computing"]),
   ("ai", ["ai", "artificial intelligence", "machine learning", "ml"]),
   ("engineering", ["engineering", "eng", "tech"]),
   ("business", ["business", "commerce", "management", "mba"]),
   ("economics", ["economics", "econ", "finance"]),
   ("design", ["design", "art", "creative"])]

/-- One entry of `_normalize_strengths`: the first synonym group whose
synonyms hit the lowercased entry, else the lowercased entry itself. -/
def normalizeStrength (groups : List (String × List String)) (s : String) : String :=
  let s_lower := lowerStr s
  match groups.find? (fun g => g.2.any (fun syn => strIn syn s_lower)) with
  | some g => g.1
  | none => s_lower

/-- `_normalize_strengths` (UK). -/
def _normalize_strengths (strengths : List String) : List String :=
  strengths.map (normalizeStrength synonym_groups)

/-- The UK `region_map`. -/
def region_map : List (String × String) :=
  [("london", "london"), ("伦敦", "london"),
   ("england", "england"), ("英格兰", "england"),
   ("scotland", "scotland"), ("苏格兰", "scotland"),
   ("wales", "wales"), ("威尔士", "wales"),
   ("northern ireland", "northern ireland"), ("北爱尔兰", "northern ireland")]

/-- `_normalize_region`. -/
def _normalize_region (region : String) : String :=
  let key := lowerStr (stripStr region)
  (region_map.lookup key).getD key

/-- `_rank_band`. -/
def _rank_band (academic_band : String) : ℤ × ℤ :=
  if academic_band == "3.9+" then (1, 50)
  else if academic_band == "3.8+" then (1, 100)
  else if academic_band == "3.6+" then (50, 200)
  else (100, 300)

/-- `_score_rank` (UK): academic-level match, nominally 10 points, scaled
by `reputation_weight`.  The call site always passes a non-`None` rank. -/
def _score_rank (rank : ℤ) (target_band : ℤ × ℤ) (reputation_weight : ℚ) : ℚ :=
  let low := target_band.1
  let high := target_band.2
  let base_score : ℚ :=
    if low ≤ rank ∧ rank ≤ high then 10
    else max 0 (10 - 3 * (((|rank - (if rank < low then low else high)| + 49) / 50 : ℤ) : ℚ))
  base_score * reputation_weight

/-- `_score_interests` (UK): major-interest match, 20 points. -/
def _score_interests (selected strengths : List String) : ℚ :=
  if selected = [] then 0
  else
    let selected_norm := _normalize_strengths selected
    let strengths_norm := _normalize_strengths strengths
    let hits : ℕ := selected_norm.countP
      (fun s => strengths_norm.any (fun st => strIn s st) || strengths_norm.any (fun st => strIn st s))
    min 20 (20 * ((hits : ℚ) / ((max 1 selected_norm.length : ℕ) : ℚ)))

/-- `_score_budget` (UK): budget match, 10 points. -/
def _score_budget (tuition_usd budget_usd : ℤ) : ℚ :=
  if budget_usd ≤ 0 then 0
  else if tuition_usd ≤ budget_usd then 10
  else max 0 (10 * (1 - ((tuition_usd - budget_usd : ℤ) : ℚ) / (budget_usd : ℚ)))

/-- `_score_ucas`: UCAS-route match, 10 points, plus an intake bonus of at
most 3 folded under the same 10-point cap. -/
def _score_ucas (route : String) (ucas_deadline_type : Option String) (intake_pref : String) : ℚ :=
  let t := ucas_deadline_type.getD ""
  let base_score : ℚ :=
    if route == "Oxbridge/医学类" then (if strIn "Oxbridge/Med(10/15)" t then 10 else 0)
    else if route == "常规路线" then (if strIn "Main(1/31)" t then 10 else 5)
    else 6
  let intake_bonus : ℚ :=
    if intake_pref == "尽快（下6–12个月）" && (strIn "Main(1/31)" t || strIn "Oxbridge/Med(10/15)" t) then 2
    else if intake_pref == "1–2年内" && t ≠ "" then 1
    else 0
  min 10 (base_score + intake_bonus)

/-- `_score_placement`: placement year, 10 points. -/
def _score_placement (pref : String) (available : Bool) : ℚ :=
  if pref == "必须" then (if available then 10 else 0)
  else if pref == "加分" then (if available then 7 else 4)
  else 5

/-- `_score_russell`: Russell-group preference, 10 points. -/
def _score_russell (pref : String) (russell : Bool) : ℚ :=
  if pref == "强" then (if russell then 10 else 4)
  else if pref == "中" then (if russell then 8 else 6)
  else 5

/-- `_score_ps_readiness`: personal-statement readiness, 10 points. -/
def _score_ps_readiness (level : String) (ps_weight : Option ℤ) : ℚ :=
  let weight : ℤ := max 1 (min 10 (match ps_weight with
    | some w => if w = 0 then 1 else w   -- int(ps_weight or 1)
    | none => 1))
  let ps_norm : ℚ := ((weight - 1 : ℤ) : ℚ) / 9 * 6
  let coef : ℚ := if level == "高" then 1 else if level == "中" then 0.6 else 0.3
  min 10 (ps_norm * coef + 4)

/-- `_score_tests`: admissions-test readiness, 5 points. -/
def _score_tests (level : String) (admissions_tests : Option String) : ℚ :=
  let needs := match admissions_tests with
    | some s => s != ""                  -- bool(admissions_tests)
    | none => false
  if needs then (if level == "高" then 5 else if level == "中" then 3 else 0)
  else 3

/-- `_score_region`: region match, 5 to 7 points. -/
def _score_region (region_pref : String) (city : String) : ℚ :=
  let region_norm := _normalize_region region_pref
  let city_norm := lowerStr (stripStr city)
  if region_pref == "不限" then 7
  else if region_norm == "london" then
    (if city_norm == "london" then 10 * (7 / 10) else 5 * (7 / 10))
  else if strIn region_norm city_norm || strIn city_norm region_norm then 10 * (7 / 10)
  else 5 * (7 / 10)

/-- `_score_intl_community` (UK): international environment, 5 points,
linear on the clamped range 0.1 to 0.35. -/
def _score_intl_community (pref : String) (intl_rate : Option ℚ) : ℚ :=
  let rate := rateVal intl_rate
  if pref == "重要" then
    let clamped := max 0.1 (min 0.35 rate)
    5 * ((clamped - 0.1) / 0.25)
  else if pref == "一般" then 3
  else 2

end UK

/-- Thousands-separator rendering of an integer, as in Python `f"{n:,}"`. -/
def commaGroupAux : ℕ → List Char → List Char
  | 0, ds => ds
  | Nat.succ fuel, ds =>
    if ds.length ≤ 3 then ds
    else ds.take 3 ++ (',' :: commaGroupAux fuel (ds.drop 3))

/-- Python `f"{n:,}"`. -/
def commaFmt (n : ℤ) : String :=
  let ds := (toString n.natAbs).toList.reverse
  String.mk ((if n < 0 then ['-'] else []) ++ (commaGroupAux ds.length ds).reverse)

/-- The final last-resort block shared (textually, per market) by the three
pipelines: when the filtered list is still empty, fall back to the first
ten in-market documents by ascending rank, recording `mkt_msg`; when the
market has no documents at all, leave the empty list unchanged.  The state
is (filtered list, applied flag, step labels). -/
def final_rank_resort (mkt_msg : String) (allm : List Doc)
    (st : List Doc × Bool × List String) : List Doc × FallbackInfo :=
  if st.1.isEmpty then
    if allm.isEmpty then (st.1, ⟨st.2.1, st.2.2⟩)
    else
      ((stableSortBy (fun a b => decide (Doc.rankVal a ≤ Doc.rankVal b)) allm).take 10,
       ⟨st.2.1, st.2.2 ++ [mkt_msg]⟩)
  else (st.1, ⟨st.2.1, st.2.2⟩)

/-- The tie-break comparator shared by the three market pipelines:
`scored.sort(key=lambda x: (-x["score"], x["tuition_usd"], x["rank"]))`,
i.e. descending score, then ascending tuition, then ascending rank. -/
def scoreSortLE (s1 : ℚ) (t1 r1 : ℤ) (s2 : ℚ) (t2 r2 : ℤ) : Bool :=
  if s1 > s2 then true
  else if s1 < s2 then false
  else if t1 < t2 then true
  else if t1 > t2 then false
  else r1 ≤ r2

namespace UK

/-- The region hard filter of `apply_uk_filters_and_score` (the candidate is
dropped when this returns `true` and a region limit is active). -/
def uk_region_excluded (inp : Input) (d : Doc) : Bool :=
  if inp.region_pref != "不限" then
    let city_norm := lowerStr (stripStr d.cityStr)
    let region_norm := _normalize_region inp.region_pref
    if region_norm == "london" then city_norm != "london"
    else !(strIn region_norm city_norm || strIn city_norm region_norm)
  else false

/-- The initial hard filter of `apply_uk_filters_and_score` (a candidate
survives when no `continue` fires). -/
def uk_hard_pred (inp : Input) (d : Doc) : Bool :=
  d.countryStr == "United Kingdom"
  && !(inp.hard_budget_must_within && d.tuitionVal > inp.budget_usd)
  && !(inp.oxbridge_must_cover && !(strIn "Oxbridge/Med(10/15)" d.ucasTypeStr))
  && !(inp.foundation_need == "必须" && !d.foundation_available)
  && !(inp.placement_year_pref == "必须" && !d.placement_year_available)
  && !(uk_region_excluded inp d)

/-- `tolerance_pct` from `budget_tolerance` ("0%"/"10%"/"20%"). -/
def uk_tolerance_pct (inp : Input) : ℚ :=
  if strIn "10%" inp.budget_tolerance then 0.1
  else if strIn "20%" inp.budget_tolerance then 0.2
  else 0

/-- `effective_tolerance = tolerance_pct if tolerance_pct > 0 else 0.1`. -/
def uk_effective_tolerance (inp : Input) : ℚ :=
  if uk_tolerance_pct inp > 0 then uk_tolerance_pct inp else 0.1

/-- `budget_expanded = int(budget_usd * (1 + effective_tolerance))`. -/
def uk_budget_expanded (inp : Input) : ℤ :=
  pyInt ((inp.budget_usd : ℚ) * (1 + uk_effective_tolerance inp))

/-- `[d for d in uk_docs if str(d.get("country")) == "United Kingdom"]`. -/
def uk_all (docs : List Doc) : List Doc :=
  docs.filter (fun d => d.countryStr == "United Kingdom")

/-- Fallback step 1: relax the region limit (unless the main concern is the
region).  State is the pair (current filtered list, step labels). -/
def uk_step1 (inp : Input) (docs : List Doc) (st : List Doc × List String) :
    List Doc × List String :=
  if inp.region_pref != "不限" && inp.main_concern != "地区不喜欢" then
    (uk_all docs, st.2 ++ ["放宽地域限制"])
  else st

/-- Fallback step 2: widen the budget by the effective tolerance. -/
def uk_step2 (inp : Input) (docs : List Doc) (st : List Doc × List String) :
    List Doc × List String :=
  if inp.hard_budget_must_within && st.1.isEmpty then
    (docs.filter (fun d =>
        d.countryStr == "United Kingdom" && d.tuitionVal ≤ uk_budget_expanded inp),
     st.2 ++ ["放宽预算至 +" ++ toString (pyInt (uk_effective_tolerance inp * 100)) ++ "%"])
  else st

/-- Fallback step 3: weaken the placement-year requirement (re-applying only
the widened budget filter). -/
def uk_step3 (inp : Input) (docs : List Doc) (st : List Doc × List String) :
    List Doc × List String :=
  if inp.placement_year_pref == "必须" && st.1.isEmpty then
    let f := uk_all docs
    let f := if inp.hard_budget_must_within then
        f.filter (fun d => d.tuitionVal ≤ uk_budget_expanded inp)
      else f
    (f, st.2 ++ ["放宽Placement Year要求（从\x27必须\x27改为\x27加分\x27）"])
  else st

/-- Fallback step 4: drop the Oxbridge/Med requirement. -/
def uk_step4 (inp : Input) (docs : List Doc) (st : List Doc × List String) :
    List Doc × List String :=
  if inp.oxbridge_must_cover && st.1.isEmpty then
    (uk_all docs, st.2 ++ ["放宽Oxbridge/Med要求（不再强制排除）"])
  else st

/-- Fallback step 5: drop the foundation requirement. -/
def uk_step5 (inp : Input) (docs : List Doc) (st : List Doc × List String) :
    List Doc × List String :=
  if inp.foundation_need == "必须" && st.1.isEmpty then
    (uk_all docs, st.2 ++ ["放宽Foundation要求（从\x27必须\x27改为\x27可选\x27）"])
  else st

/-- Fallback step 6: the bottom pool (cheapest few of the top 250 by rank). -/
def uk_step6 (_inp : Input) (docs : List Doc) (st : List Doc × List String) :
    List Doc × List String :=
  if st.1.isEmpty then
    let steps' := st.2 ++ ["启用兜底池（Top 250最低学费6-10所）"]
    let all_uk := uk_all docs
    if all_uk.isEmpty then (st.1, steps')
    else
      let sorted_by_rank := stableSortBy (fun a b => decide (a.rankVal ≤ b.rankVal)) all_uk
      let top250 := sorted_by_rank.filter (fun d => decide (d.rankVal ≤ 250))
      let top250 := if top250.isEmpty then sorted_by_rank.take 250 else top250
      let sorted_by_tuition :=
        stableSortBy (fun a b => decide (a.tuitionValHigh ≤ b.tuitionValHigh)) top250
      (sorted_by_tuition.take 10, steps')
  else st

/-- The filtering phase of `apply_uk_filters_and_score`: initial hard filter,
the fallback ladder when it starves, and the unconditional last resort. -/
def uk_filter_stage (inp : Input) (docs : List Doc) (enable_fallback : Bool) :
    List Doc × FallbackInfo :=
  let filtered0 := docs.filter (uk_hard_pred inp)
  let st :=
    if filtered0.isEmpty && enable_fallback then
      let s := uk_step6 inp docs (uk_step5 inp docs (uk_step4 inp docs
        (uk_step3 inp docs (uk_step2 inp docs (uk_step1 inp docs ([], []))))))
      (s.1, true, s.2)
    else (filtered0, false, ([] : List String))
  final_rank_resort "最终兜底：返回所有可用英国学校（按排名）" (uk_all docs) st

/-- `rank_weight` from `reputation_vs_value` (the only weight modulation). -/
def rank_weight (reputation_vs_value : String) : ℚ :=
  if reputation_vs_value == "名气优先" then 1.2
  else if reputation_vs_value == "性价比优先" then 0.8
  else 1

/-- One record of the `scored` list built by `apply_uk_filters_and_score`. -/
structure Scored where
  id : String
  name : String
  score : ℚ
  rank : ℤ
  tuition_usd : ℤ
  city : String
  strengths : List String
  placement_year_available : Bool
  russell_group : Bool
  personal_statement_weight : Option ℤ
  admissions_tests : Option String
  ucas_deadline_type : String
  foundation_available : Bool
  intlRate : Option ℚ
deriving Repr, DecidableEq

/-- The accumulated `total` of the UK scoring loop, before rounding. -/
def uk_total (inp : Input) (d : Doc) : ℚ :=
  let target_band := _rank_band inp.academic_band
  let interests := _normalize_list inp.interests
  let strengths := _normalize_list d.strengths
  _score_rank d.rankVal target_band (rank_weight inp.reputation_vs_value)
  + _score_interests interests strengths
  + _score_budget d.tuitionVal inp.budget_usd
  + _score_ucas inp.ucas_route d.ucas_deadline_type inp.intake_preference
  + _score_placement inp.placement_year_pref d.placement_year_available
  + _score_russell inp.russell_pref d.russell_group
  + _score_ps_readiness inp.prep_level d.personal_statement_weight
  + _score_tests inp.prep_level d.admissions_tests
  + _score_region inp.region_pref d.cityStr
  + _score_intl_community inp.intl_env_importance d.intlRate

/-- The `scored.append({...})` record for one surviving UK document. -/
def uk_score_doc (inp : Input) (d : Doc) : Scored where
  id := d.oid
  name := d.name
  score := round2 (uk_total inp d)
  rank := d.rankVal
  tuition_usd := d.tuitionVal
  city := d.city.getD ""
  strengths := _normalize_list d.strengths
  placement_year_available := d.placement_year_available
  russell_group := d.russell_group
  personal_statement_weight := d.personal_statement_weight
  admissions_tests := d.admissions_tests
  ucas_deadline_type := d.ucas_deadline_type.getD ""
  foundation_available := d.foundation_available
  intlRate := d.intlRate

/-- `apply_uk_filters_and_score` (`gpt/uk_evaluation.py`). -/
def apply_uk_filters_and_score (inp : Input) (docs : List Doc) (enable_fallback : Bool) :
    List Scored × FallbackInfo :=
  let st := uk_filter_stage inp docs enable_fallback
  (stableSortBy
     (fun a b => scoreSortLE a.score a.tuition_usd a.rank b.score b.tuition_usd b.rank)
     (st.1.map (uk_score_doc inp)),
   st.2)

end UK

namespace SG

/-! ## `gpt/sg_evaluation.py`

`_normalize_list`, `_normalize_strengths`, `_rank_band`, `_score_rank` and
`_score_interests` in `sg_evaluation.py` are textually identical to the UK
versions, so they are reused here by aliasing. -/

/-- `_normalize_list` (SG) — identical to the UK definition. -/
def _normalize_list : List String → List String := UK._normalize_list

/-- `_normalize_strengths` (SG) — identical synonym table to the UK one. -/
def _normalize_strengths : List String → List String := UK._normalize_strengths

/-- `_rank_band` (SG) — identical to the UK definition. -/
def _rank_band : String → ℤ × ℤ := UK._rank_band

/-- `_score_rank` (SG) — identical to the UK definition. -/
def _score_rank : ℤ → ℤ × ℤ → ℚ → ℚ := UK._score_rank

/-- `_score_interests` (SG) — identical to the UK definition. -/
def _score_interests : List String → List String → ℚ := UK._score_interests

/-- `_score_budget15`: budget match, 15 points. -/
def _score_budget15 (tuition_usd budget_usd : ℤ) : ℚ :=
  if budget_usd ≤ 0 then 0
  else if tuition_usd ≤ budget_usd then 15
  else max 0 (15 * (1 - ((tuition_usd - budget_usd : ℤ) : ℚ) / (budget_usd : ℚ)))

/-- `_score_orientation`: training orientation, 15 points. -/
def _score_orientation (orientation : String) (industry_links_score : Option ℤ)
    (coop_required : Bool) : ℚ :=
  let score : ℤ := max 1 (min 10 (industry_links_score.getD 0))
  if orientation == "产业" then
    min 15 (((score - 1 : ℤ) : ℚ) / 9 * 15 + (if coop_required then 5 else 0))
  else if orientation == "研究" then
    (if 8 ≤ score then 12 else 10)
  else
    min 15 (((score - 1 : ℤ) : ℚ) / 9 * 12 + (if coop_required then 3 else 0))

/-- `bond_years in (0, None, 0.0)`. -/
def Doc.bondZero (d : Doc) : Bool :=
  match d.tuition_grant_bond_years with
  | none => true
  | some v => v == 0

/-- `_score_tg_bond`: tuition-grant / bond intention, 5 points. -/
def _score_tg_bond (tg_pref : String) (tg_available : Bool) (bond_years : Option ℚ) : ℚ :=
  if tg_pref == "愿意" || tg_pref == "接受" then (if tg_available then 5 else 3)
  else if tg_pref == "希望避免" || tg_pref == "不愿意" then
    (if (match bond_years with | none => true | some v => v == 0) then 5 else 0)
  else 3

/-- `_score_interview_portfolio`: interview / portfolio, 10 points. -/
def _score_interview_portfolio (readiness : String) (need_interview need_portfolio : Bool) : ℚ :=
  if need_interview || need_portfolio then
    (if readiness == "愿意" then 10 else if readiness == "一般" then 6 else 0)
  else 7

/-- `_score_double_degree`: double-degree opportunity, 5 points. -/
def _score_double_degree (need : Bool) (tags : List String) : ℚ :=
  if !need then 5
  else
    let tag_lower := tags.map (fun t => lowerStr t)
    let hit := tag_lower.any (fun tag =>
      ["double degree", "dsa", "interdisciplinary", "dual", "joint"].any
        (fun keyword => strIn keyword tag))
    if hit then 5 else 3

/-- `_score_exchange`: exchange opportunity, 5 points. -/
def _score_exchange (need : Bool) (exchange_score : Option ℤ) : ℚ :=
  if !need then 2
  else
    let score : ℤ := max 0 (min 10 (exchange_score.getD 0))
    ((score : ℚ) / 10) * 5

/-- `_score_safety`: safety / comfort, 5 points (conservative default 3/10
when the candidate has no safety score). -/
def _score_safety (pref : String) (safety_score : Option ℚ) : ℚ :=
  let s : ℚ := max 0 (min 10 (safety_score.getD 3))
  if pref == "重要" then (s / 10) * 5
  else if pref == "一般" then 3
  else 2

/-- `_score_scholarship` (SG): scholarship friendliness, 10 points. -/
def _score_scholarship (pref : String) (has_scholarship : Bool) : ℚ :=
  if pref == "重要" then (if has_scholarship then 10 else 3)
  else if pref == "一般" then (if has_scholarship then 7 else 5)
  else 5

/-- The initial hard filter of `apply_sg_filters_and_score`. -/
def sg_hard_pred (inp : Input) (d : Doc) : Bool :=
  d.countryStr == "Singapore"
  && !(inp.hard_budget_must_within && d.tuitionVal > inp.budget_usd)
  && !(inp.tg_must && !d.tuition_grant_available)
  && !(inp.hard_refuse_bond && !(Doc.bondZero d))
  && !(inp.hard_refuse_interview_or_portfolio
        && (d.interview_required || d.essay_or_portfolio_required))

/-- `tolerance_pct` (SG) — same derivation as the UK one. -/
def sg_tolerance_pct (inp : Input) : ℚ :=
  if strIn "10%" inp.budget_tolerance then 0.1
  else if strIn "20%" inp.budget_tolerance then 0.2
  else 0

/-- `effective_tolerance` (SG). -/
def sg_effective_tolerance (inp : Input) : ℚ :=
  if sg_tolerance_pct inp > 0 then sg_tolerance_pct inp else 0.1

/-- `budget_expanded = int(budget_usd * (1 + effective_tolerance))` (SG). -/
def sg_budget_expanded (inp : Input) : ℤ :=
  pyInt ((inp.budget_usd : ℚ) * (1 + sg_effective_tolerance inp))

/-- `[d for d in sg_docs if str(d.get("country")) == "Singapore"]`. -/
def sg_all (docs : List Doc) : List Doc :=
  docs.filter (fun d => d.countryStr == "Singapore")

/-- SG fallback step 1: widen the budget, keeping the TG, bond and
interview filters in force when they are active. -/
def sg_step1 (inp : Input) (docs : List Doc) (st : List Doc × List String) :
    List Doc × List String :=
  if inp.hard_budget_must_within && inp.main_concern != "超预算" then
    let f := docs.filter (fun d =>
      d.countryStr == "Singapore" && d.tuitionVal ≤ sg_budget_expanded inp)
    let f := if inp.tg_must then f.filter (fun d => d.tuition_grant_available) else f
    let f := if inp.hard_refuse_bond then f.filter (fun d => Doc.bondZero d) else f
    let f := if inp.hard_refuse_interview_or_portfolio then
        f.filter (fun d => !(d.interview_required || d.essay_or_portfolio_required))
      else f
    (f, st.2 ++ ["放宽预算至 +" ++ toString (pyInt (sg_effective_tolerance inp * 100))
                 ++ "%（临时放宽，仅为给出参考备选）"])
  else st

/-- SG fallback step 2: drop the interview/portfolio refusal, keeping the
widened budget, TG and bond filters in force when active. -/
def sg_step2 (inp : Input) (docs : List Doc) (st : List Doc × List String) :
    List Doc × List String :=
  if inp.hard_refuse_interview_or_portfolio && st.1.isEmpty
      && inp.main_concern != "需要面试" then
    let f := sg_all docs
    let f := if inp.hard_budget_must_within then
        f.filter (fun d => d.tuitionVal ≤ sg_budget_expanded inp)
      else f
    let f := if inp.tg_must then f.filter (fun d => d.tuition_grant_available) else f
    let f := if inp.hard_refuse_bond then f.filter (fun d => Doc.bondZero d) else f
    (f, st.2 ++ ["放宽面试/作品集要求（保留但低分，标注需要面试/作品集）"])
  else st

/-- SG fallback step 3: drop the bond refusal, keeping the widened budget
and TG filters in force when active. -/
def sg_step3 (inp : Input) (docs : List Doc) (st : List Doc × List String) :
    List Doc × List String :=
  if inp.hard_refuse_bond && st.1.isEmpty && inp.main_concern != "TG服务期" then
    let f := sg_all docs
    let f := if inp.hard_budget_must_within then
        f.filter (fun d => d.tuitionVal ≤ sg_budget_expanded inp)
      else f
    let f := if inp.tg_must then f.filter (fun d => d.tuition_grant_available) else f
    (f, st.2 ++ ["放宽Bond要求（保留有Bond的TG方案，但标红需签约服务期）"])
  else st

/-- SG fallback step 4: drop the TG requirement (unless the user refuses
bonds outright), keeping the widened budget filter in force when active. -/
def sg_step4 (inp : Input) (docs : List Doc) (st : List Doc × List String) :
    List Doc × List String :=
  if inp.tg_must && st.1.isEmpty then
    if inp.bond_acceptance != "不愿意" then
      let f := sg_all docs
      let f := if inp.hard_budget_must_within then
          f.filter (fun d => d.tuitionVal ≤ sg_budget_expanded inp)
        else f
      (f, st.2 ++ ["放宽TG要求（从\x27必须\x27改为\x27可选\x27）"])
    else st
  else st

/-- SG fallback step 5: relax the academic tier (take every SG candidate). -/
def sg_step5 (_inp : Input) (docs : List Doc) (st : List Doc × List String) :
    List Doc × List String :=
  if st.1.isEmpty then
    (sg_all docs, st.2 ++ ["放宽学术层级要求（目标带外惩罚减半）"])
  else st

/-- SG fallback step 6: the bottom pool (cheapest few of the top 300). -/
def sg_step6 (_inp : Input) (docs : List Doc) (st : List Doc × List String) :
    List Doc × List String :=
  if st.1.isEmpty then
    let steps' := st.2 ++ ["启用兜底池（Top 300最低学费5-8所）"]
    let all_sg := sg_all docs
    if all_sg.isEmpty then (st.1, steps')
    else
      let sorted_by_rank := stableSortBy (fun a b => decide (a.rankVal ≤ b.rankVal)) all_sg
      let top300 := sorted_by_rank.filter (fun d => decide (d.rankVal ≤ 300))
      let top300 := if top300.isEmpty then sorted_by_rank.take 300 else top300
      let sorted_by_tuition :=
        stableSortBy (fun a b => decide (a.tuitionValHigh ≤ b.tuitionValHigh)) top300
      (sorted_by_tuition.take 8, steps')
  else st

/-- The filtering phase of `apply_sg_filters_and_score`. -/
def sg_filter_stage (inp : Input) (docs : List Doc) (enable_fallback : Bool) :
    List Doc × FallbackInfo :=
  let filtered0 := docs.filter (sg_hard_pred inp)
  let st :=
    if filtered0.isEmpty && enable_fallback then
      let s := sg_step6 inp docs (sg_step5 inp docs (sg_step4 inp docs
        (sg_step3 inp docs (sg_step2 inp docs (sg_step1 inp docs ([], []))))))
      (s.1, true, s.2)
    else (filtered0, false, ([] : List String))
  final_rank_resort "最终兜底：返回所有可用新加坡学校（按排名）" (sg_all docs) st

/-- One record of the `scored` list built by `apply_sg_filters_and_score`. -/
structure Scored where
  id : String
  name : String
  score : ℚ
  rank : ℤ
  tuition_usd : ℤ
  city : String
  strengths : List String
  tags : List String
  tuition_grant_available : Bool
  tuition_grant_bond_years : Option ℚ
  interview_required : Bool
  essay_or_portfolio_required : Bool
  industry_links_score : Option ℤ
  coop_or_internship_required : Bool
  exchange_opportunities_score : Option ℤ
  safety_score : Option ℚ
  scholarship_available : Bool
deriving Repr, DecidableEq

/-- The accumulated `total` of the SG scoring loop, before rounding. -/
def sg_total (inp : Input) (d : Doc) : ℚ :=
  let target_band := _rank_band inp.academic_band
  let interests := _normalize_list inp.interests
  let strengths := _normalize_list d.strengths
  let tags := _normalize_list d.tags
  _score_rank d.rankVal target_band (UK.rank_weight inp.reputation_vs_value)
  + _score_interests interests strengths
  + _score_budget15 d.tuitionVal inp.budget_usd
  + _score_orientation inp.orientation d.industry_links_score d.coop_or_internship_required
  + _score_tg_bond inp.bond_acceptance d.tuition_grant_available d.tuition_grant_bond_years
  + _score_interview_portfolio inp.interview_portfolio d.interview_required
      d.essay_or_portfolio_required
  + _score_double_degree inp.want_double_degree tags
  + _score_exchange inp.want_exchange d.exchange_opportunities_score
  + _score_safety inp.safety_importance d.safety_score
  + _score_scholarship inp.scholarship_importance d.scholarship_available

/-- The `scored.append({...})` record for one surviving SG document. -/
def sg_score_doc (inp : Input) (d : Doc) : Scored where
  id := d.oid
  name := d.name
  score := round2 (sg_total inp d)
  rank := d.rankVal
  tuition_usd := d.tuitionVal
  city := d.city.getD ""
  strengths := _normalize_list d.strengths
  tags := _normalize_list d.tags
  tuition_grant_available := d.tuition_grant_available
  tuition_grant_bond_years := d.tuition_grant_bond_years
  interview_required := d.interview_required
  essay_or_portfolio_required := d.essay_or_portfolio_required
  industry_links_score := d.industry_links_score
  coop_or_internship_required := d.coop_or_internship_required
  exchange_opportunities_score := d.exchange_opportunities_score
  safety_score := d.safety_score
  scholarship_available := d.scholarship_available

/-- `apply_sg_filters_and_score` (`gpt/sg_evaluation.py`). -/
def apply_sg_filters_and_score (inp : Input) (docs : List Doc) (enable_fallback : Bool) :
    List Scored × FallbackInfo :=
  let st := sg_filter_stage inp docs enable_fallback
  (stableSortBy
     (fun a b => scoreSortLE a.score a.tuition_usd a.rank b.score b.tuition_usd b.rank)
     (st.1.map (sg_score_doc inp)),
   st.2)

end SG

namespace AU

/-! ## `gpt/au_evaluation.py` -/

/-- `_rank_band_for_academic`. -/
def _rank_band_for_academic (band : String) : ℤ × ℤ :=
  if band == "3.9+" then (1, 60)
  else if band == "3.8+" then (1, 100)
  else if band == "3.6+" then (60, 200)
  else (100, 300)

/-- `_normalize_list` (AU) — identical to the UK definition. -/
def _normalize_list : List String → List String := UK._normalize_list

/-- The AU `city_map`. -/
def city_map : List (String × String) :=
  [("sydney", "sydney"), ("悉尼", "sydney"),
   ("melbourne", "melbourne"), ("墨尔本", "melbourne"),
   ("brisbane", "brisbane"), ("布里斯班", "brisbane"),
   ("adelaide", "adelaide"), ("阿德莱德", "adelaide"),
   ("perth", "perth"), ("珀斯", "perth")]

/-- `_normalize_city`. -/
def _normalize_city (city : String) : String :=
  let c := lowerStr (stripStr city)
  (city_map.lookup c).getD c

/-- The AU `synonym_groups` table, in insertion order. -/
def synonym_groups : List (String × List String) :=
  [("cs", ["cs", "computer science", "it", "software", "computing", "information technology"]),
   ("ai", ["ai", "artificial intelligence", "machine learning", "ml", "data science"]),
   ("engineering", ["engineering", "eng", "tech", "mechanical", "civil", "electrical", "chemical"]),
   ("business", ["business", "commerce", "management", "mba", "marketing", "accounting"]),
   ("economics", ["economics", "econ", "finance", "financial"]),
   ("design", ["design", "art", "creative", "graphic design", "fashion"]),
   ("medicine", ["medicine", "medical", "health", "biomedical"]),
   ("law", ["law", "legal", "jurisprudence"]),
   ("education", ["education", "teaching", "pedagogy"]),
   ("architecture", ["architecture", "architectural", "urban planning"]),
   ("nursing", ["nursing", "nurse", "healthcare"]),
   ("psychology", ["psychology", "psych", "counseling"]),
   ("pharmacy", ["pharmacy", "pharmaceutical"]),
   ("veterinary", ["veterinary", "vet", "animal science"]),
   ("agriculture", ["agriculture", "agricultural", "agronomy"]),
   ("arts", ["arts", "fine arts", "visual arts"]),
   ("humanities", ["humanities", "history", "philosophy", "literature"]),
   ("natural sciences", ["natural sciences", "biology", "chemistry", "physics", "mathematics"]),
   ("public health", ["public health", "epidemiology", "health policy"]),
   ("communication", ["communication", "media", "journalism", "public relations"]),
   ("film", ["film", "cinema", "film studies", "media production"]),
   ("marine science", ["marine science", "oceanography", "marine biology"]),
   ("social work", ["social work", "social services"]),
   ("tourism", ["tourism", "hospitality", "tourism management"]),
   ("sports science", ["sports science", "exercise science", "kinesiology", "sports"])]

/-- `_normalize_strengths` (AU). -/
def _normalize_strengths (strengths : List String) : List String :=
  strengths.map (UK.normalizeStrength synonym_groups)

/-- `_score_rank` (AU): like the UK one but with a 5-point decay step. -/
def _score_rank (rank : ℤ) (target_band : ℤ × ℤ) (reputation_weight : ℚ) : ℚ :=
  let low := target_band.1
  let high := target_band.2
  let base_score : ℚ :=
    if low ≤ rank ∧ rank ≤ high then 10
    else max 0 (10 - 5 * (((|rank - (if rank < low then low else high)| + 49) / 50 : ℤ) : ℚ))
  base_score * reputation_weight

/-- `_score_interests` (AU): same shape as the UK one, over the AU synonym
table. -/
def _score_interests (selected strengths : List String) : ℚ :=
  if selected = [] then 0
  else
    let selected_norm := _normalize_strengths selected
    let strengths_norm := _normalize_strengths strengths
    let hits : ℕ := selected_norm.countP
      (fun s => strengths_norm.any (fun st => strIn s st) || strengths_norm.any (fun st => strIn st s))
    min 20 (20 * ((hits : ℚ) / ((max 1 selected_norm.length : ℕ) : ℚ)))

/-- `_score_budget` (AU) — identical to the UK definition. -/
def _score_budget : ℤ → ℤ → ℚ := UK._score_budget

/-- `_score_wil`: work-integrated learning, 10 points, with the
`career_focus` internal weight. -/
def _score_wil (wil_pref : String) (wil : Bool) (placement_rate : Option ℚ)
    (career_focus : String) : ℚ :=
  let rate := rateVal placement_rate
  let placement_weight : ℚ :=
    if career_focus == "就业口碑" && rate > 0 then 1.2
    else if career_focus == "带实习标签" && wil then 1.3
    else 1
  if wil_pref == "必须" then (if wil then 7 + min 3 (rate * 3 * placement_weight) else 0)
  else if wil_pref == "加分" then (if wil then 5 + min 2 (rate * 2 * placement_weight) else 4)
  else 3

/-- `_score_study_length`: study length, 5 points. -/
def _score_study_length (pref : String) (length_years : Option ℚ) : ℚ :=
  match length_years with
  | none => 3
  | some length =>
    let standard : ℚ := 3.5
    if pref == "越短越好" then
      (if length ≤ standard then 5 else max 2 (5 - (length - standard) * 2))
    else if pref == "可接受标准学制" then
      (if |length - standard| ≤ 0.5 then 5 else 3)
    else 3

/-- `_score_intakes`: intake timing, 5 points (`not intakes` is also true
for an empty string). -/
def _score_intakes (pref : String) (intakes : Option String) : ℚ :=
  let s := intakes.getD ""
  if s == "" then 3
  else
    let intake_str := lowerStr s
    let has_feb := strIn "feb" intake_str || strIn "2月" intake_str || strIn "february" intake_str
    let has_jul := strIn "jul" intake_str || strIn "7月" intake_str || strIn "july" intake_str
    let has_recent_intake := has_feb || has_jul
    if pref == "越快越好（6–12个月内）" then (if has_recent_intake then 5 else 3)
    else if pref == "1–2年内" then (if has_recent_intake then 4 else 3)
    else 3

/-- `_score_go8`: Group-of-Eight preference, 8 points. -/
def _score_go8 (pref : String) (go8 : Bool) : ℚ :=
  if pref == "强烈偏好" then (if go8 then 8 else 3)
  else if pref == "可以考虑" then (if go8 then 6 else 5)
  else 5

/-- `_score_city`: city match, 6 points. -/
def _score_city (pref_cities : List String) (city : String) : ℚ :=
  let city_norm := _normalize_city city
  let pref_norm := pref_cities.map _normalize_city
  if pref_cities.isEmpty || pref_cities.contains "不限"
      || pref_cities.any (fun c => strIn "不限" c) then
    7 * (6 / 10)
  else if pref_norm.contains city_norm then 6
  else 5 * (6 / 10)

/-- `_score_psw`: post-study work visa, 8 points. -/
def _score_psw (importance : String) (psw_years : Option ℚ) : ℚ :=
  let psw : ℚ := max 2 (min 4 (psw_years.getD 2))
  if importance == "非常在意" then 8 * ((psw - 2) / 2)
  else if importance == "一般" then 6 * (8 / 10)
  else 4 * (8 / 10)

/-- `_score_english`: English readiness, 6 points. -/
def _score_english (readiness : String) (requires_english_test accept_language_course : Bool) : ℚ :=
  if !requires_english_test then 4 * (6 / 5)
  else if readiness == "已达标" then 6
  else if readiness == "3个月内可达" then 3 * (6 / 5)
  else if accept_language_course then 1 * (6 / 5)
  else 0

/-- `_score_intl_community` (AU): international community, 6 points, linear
on the clamped range 0.1 to 0.6. -/
def _score_intl_community (pref : String) (intl_rate : Option ℚ) : ℚ :=
  let rate := rateVal intl_rate
  if pref == "重要" then
    let clamped := max 0.1 (min 0.6 rate)
    6 * ((clamped - 0.1) / 0.5)
  else if pref == "一般" then 3 * (6 / 5)
  else 2 * (6 / 5)

/-- `_score_scholarship` (AU): scholarship availability, 6 points. -/
def _score_scholarship (pref : String) (has_scholarship : Bool) : ℚ :=
  if pref == "很重要" then (if has_scholarship then 6 else 3 * (6 / 10))
  else if pref == "一般" then (if has_scholarship then 7 * (6 / 10) else 5 * (6 / 10))
  else 5 * (6 / 10)

/-- `pref_cities = _normalize_list(input_data.get("city_preferences", []))`. -/
def au_pref_cities (inp : Input) : List String := _normalize_list inp.city_preferences

/-- `has_city_limit = pref_cities and "不限" not in [c.lower() for c in pref_cities]`. -/
def au_has_city_limit (inp : Input) : Bool :=
  !(au_pref_cities inp).isEmpty
  && !((au_pref_cities inp).map (fun c => lowerStr c)).contains "不限"

/-- The initial hard filter of `apply_au_filters_and_score`. -/
def au_hard_pred (inp : Input) (d : Doc) : Bool :=
  d.countryStr == "Australia"
  && !(inp.hard_budget_must_within && d.tuitionVal > inp.budget_usd)
  && !(inp.wil_preference == "必须" && !d.work_integrated_learning)
  && !(au_has_city_limit inp
        && !((au_pref_cities inp).map _normalize_city).contains (_normalize_city d.cityStr))
  && !(inp.hard_english_required_exclude && d.requires_english_test
        && inp.english_readiness == "需更长")

/-- `[d for d in au_docs if str(d.get("country")) == "Australia"]`. -/
def au_all (docs : List Doc) : List Doc :=
  docs.filter (fun d => d.countryStr == "Australia")

/-- AU fallback step 1: relax the city limit. -/
def au_step1 (inp : Input) (docs : List Doc) (st : List Doc × List String) :
    List Doc × List String :=
  if au_has_city_limit inp then (au_all docs, st.2 ++ ["放宽城市限制"])
  else st

/-- AU fallback step 2: widen the budget by a fixed 10%. -/
def au_step2 (inp : Input) (docs : List Doc) (st : List Doc × List String) :
    List Doc × List String :=
  if inp.hard_budget_must_within && st.1.isEmpty then
    (docs.filter (fun d =>
        d.countryStr == "Australia"
        && d.tuitionVal ≤ pyInt ((inp.budget_usd : ℚ) * 1.1)),
     st.2 ++ ["放宽预算至 +10%"])
  else st

/-- AU fallback step 3: drop the English exclusion (re-applying only the
widened budget filter). -/
def au_step3 (inp : Input) (docs : List Doc) (st : List Doc × List String) :
    List Doc × List String :=
  if inp.hard_english_required_exclude && st.1.isEmpty then
    let f := au_all docs
    let f := if inp.hard_budget_must_within then
        f.filter (fun d => d.tuitionVal ≤ pyInt ((inp.budget_usd : ℚ) * 1.1))
      else f
    (f, st.2 ++ ["放宽英语要求（保留需语言班学校）"])
  else st

/-- AU fallback step 4: weaken the WIL requirement. -/
def au_step4 (inp : Input) (docs : List Doc) (st : List Doc × List String) :
    List Doc × List String :=
  if inp.wil_preference == "必须" && st.1.isEmpty then
    (au_all docs, st.2 ++ ["放宽WIL要求（从\x27必须\x27改为\x27优先\x27）"])
  else st

/-- AU fallback step 5: the bottom pool (cheapest ten of the top 200). -/
def au_step5 (_inp : Input) (docs : List Doc) (st : List Doc × List String) :
    List Doc × List String :=
  if st.1.isEmpty then
    let steps' := st.2 ++ ["启用兜底池（Top 200最低学费10所）"]
    let all_au := au_all docs
    if all_au.isEmpty then ([], steps')
    else
      let sorted_by_rank := stableSortBy (fun a b => decide (a.rankVal ≤ b.rankVal)) all_au
      let top200 := sorted_by_rank.take 200
      let sorted_by_tuition :=
        stableSortBy (fun a b => decide (a.tuitionValHigh ≤ b.tuitionValHigh)) top200
      (sorted_by_tuition.take 10, steps')
  else st

/-- The filtering phase of `apply_au_filters_and_score`.  Unlike the UK and
SG pipelines, the AU last resort sits inside the `enable_fallback` block. -/
def au_filter_stage (inp : Input) (docs : List Doc) (enable_fallback : Bool) :
    List Doc × FallbackInfo :=
  let filtered0 := docs.filter (au_hard_pred inp)
  if filtered0.isEmpty && enable_fallback then
    let s := au_step5 inp docs (au_step4 inp docs (au_step3 inp docs
      (au_step2 inp docs (au_step1 inp docs ([], [])))))
    final_rank_resort "最终兜底：返回所有可用澳洲学校（按排名）" (au_all docs) (s.1, true, s.2)
  else (filtered0, ⟨false, []⟩)

/-- One record of the `scored` list built by `apply_au_filters_and_score`. -/
structure Scored where
  id : String
  name : String
  score : ℚ
  rank : ℤ
  tuition_usd : ℤ
  city : String
  strengths : List String
  work_integrated_learning : Bool
  placement_rate : Option ℚ
  post_study_visa_years : Option ℚ
  requires_english_test : Bool
  english_requirements : String
  intlRate : Option ℚ
  scholarship_available : Bool
  study_length_years : Option ℚ
  intakes : String
deriving Repr, DecidableEq

/-- The accumulated `total` of the AU scoring loop, before rounding. -/
def au_total (inp : Input) (d : Doc) : ℚ :=
  let target_band := _rank_band_for_academic inp.academic_band
  let interests := _normalize_list inp.interests
  let strengths := _normalize_list d.strengths
  _score_rank d.rankVal target_band (UK.rank_weight inp.reputation_vs_value)
  + _score_interests interests strengths
  + _score_budget d.tuitionVal inp.budget_usd
  + _score_wil inp.wil_preference d.work_integrated_learning d.placement_rate inp.career_focus
  + _score_go8 inp.go8_preference d.group_of_eight
  + _score_city (au_pref_cities inp) d.cityStr
  + _score_psw inp.psw_importance d.post_study_visa_years
  + _score_english inp.english_readiness d.requires_english_test inp.accept_language_course
  + _score_intl_community inp.intl_community_importance d.intlRate
  + _score_scholarship inp.scholarship_importance d.scholarship_available
  + _score_study_length inp.study_length_preference d.study_length_years
  + _score_intakes inp.intake_preference d.intakes

/-- The `scored.append({...})` record for one surviving AU document. -/
def au_score_doc (inp : Input) (d : Doc) : Scored where
  id := d.oid
  name := d.name
  score := round2 (au_total inp d)
  rank := d.rankVal
  tuition_usd := d.tuitionVal
  city := d.city.getD ""
  strengths := _normalize_list d.strengths
  work_integrated_learning := d.work_integrated_learning
  placement_rate := d.placement_rate
  post_study_visa_years := d.post_study_visa_years
  requires_english_test := d.requires_english_test
  english_requirements := d.english_requirements
  intlRate := d.intlRate
  scholarship_available := d.scholarship_available
  study_length_years := d.study_length_years
  intakes := d.intakes.getD ""

/-- `apply_au_filters_and_score` (`gpt/au_evaluation.py`). -/
def apply_au_filters_and_score (inp : Input) (docs : List Doc) (enable_fallback : Bool) :
    List Scored × FallbackInfo :=
  let st := au_filter_stage inp docs enable_fallback
  (stableSortBy
     (fun a b => scoreSortLE a.score a.tuition_usd a.rank b.score b.tuition_usd b.rank)
     (st.1.map (au_score_doc inp)),
   st.2)

end AU

namespace US

/-! ## `gpt/recommend_schools.py` (generic / USA market)

The Mongo `db.universities.find(filters)` calls are modeled as list
filters over the materialized candidate pool, with the query semantics of
the three operator shapes `build_hard_filters` emits. -/

/-- A document of the `universities` (USA) collection, with every field
`score_school` and the filters read. -/
structure USchool where
  oid : String := ""                -- the Mongo `_id`
  name : String := ""
  country : Option String := none
  strengths : List String := []
  rank : Option ℤ := none
  internship_support_score : ℚ := 0 -- `school.get("internship_support_score", 0.0)`
  type : Option String := none
  tuition : Option ℚ := none
  tags : List String := []
  acceptanceRate : Option ℚ := none
  intlRate : Option ℚ := none
  state : String := ""              -- `school.get("state", "")`
  region : String := ""             -- `school.get("region", "")`
  supports_ed : Bool := false
  supports_ea : Bool := false
deriving Repr, DecidableEq

/-- Maximal runs of decimal digits in a string: `re.findall(r'\d+', s)`. -/
def digitRunsAux : List Char → List Char → List String
  | [], cur => if cur.isEmpty then [] else [String.mk cur.reverse]
  | c :: rest, cur =>
    if c.isDigit then digitRunsAux rest (c :: cur)
    else if cur.isEmpty then digitRunsAux rest []
    else String.mk cur.reverse :: digitRunsAux rest []

/-- `re.findall(r'\d+', s)`. -/
def findDigitRuns (s : String) : List String := digitRunsAux s.toList []

/-- Python `float(s)` restricted to the nonnegative integer literals this
code feeds it (the digit runs of `findDigitRuns`, and dash-free range
halves); anything else models `ValueError` as `none`. -/
def pyFloat? (s : String) : Option ℚ :=
  let t := stripStr s
  if (t != "") && t.toList.all (fun c => c.isDigit) then
    some ((t.toList.foldl (fun acc c => acc * 10 + (c.toNat - 48)) (0 : ℕ) : ℕ) : ℚ)
  else none

/-- `parse_budget_max`: largest budget amount parsed from the free-text
budget string (`None` on no parse or on an exception). -/
def parse_budget_max (budget_str : String) : Option ℚ :=
  if strIn "万" budget_str then
    let numbers := findDigitRuns budget_str
    if 2 ≤ numbers.length then
      (pyFloat? (numbers.getLast?.getD "")).map (fun v => v * 10000 / 7.2)
    else if numbers.length == 1 then
      (pyFloat? (numbers.head?.getD "")).map (fun v => v * 10000 / 7.2)
    else none
  else if strIn "以上" budget_str || strIn "above" (lowerStr budget_str) then
    ((findDigitRuns budget_str).head?).bind (fun n => (pyFloat? n).map (fun v => v * 1000))
  else if strIn "-" budget_str then
    let parts := budget_str.splitOn "-"
    if parts.length == 2 then pyFloat? (parts.getLast?.getD "") else none
  else if strIn "k" (lowerStr budget_str) then
    ((findDigitRuns budget_str).getLast?).bind (fun n => (pyFloat? n).map (fun v => v * 1000))
  else
    ((findDigitRuns budget_str).getLast?).bind (fun n => pyFloat? n)

/-- The `activity_mappings` table of `score_school`, in insertion order. -/
def activity_mappings : List (String × String) :=
  [("学术竞赛", "academic_competitions"), ("科研", "undergrad_research"),
   ("学生会", "student_government_support"), ("社团活动", "student_club_support"),
   ("志愿服务", "community_service_opportunities"), ("实习经历", "career_center_support"),
   ("创业经历", "entrepreneurship_friendly"), ("推荐信准备", "recommendation_letter_support"),
   ("职业规划", "career_center_support"), ("社区服务", "community_service_opportunities")]

/-- `school.get("rank")` truthiness: present and non-zero. -/
def USchool.rankTruthy? (s : USchool) : Option ℤ :=
  match s.rank with
  | some r => if r = 0 then none else some r
  | none => none

/-- `school.get("tuition")` truthiness: present and non-zero. -/
def USchool.tuitionTruthy? (s : USchool) : Option ℚ :=
  match s.tuition with
  | some t => if t = 0 then none else some t
  | none => none

/-- `score_school` dimension 1: major match, 20 points. -/
def us_major_match (inp : Input) (school : USchool) : ℚ :=
  if inp.interest_fields ≠ [] ∧ school.strengths ≠ [] then
    let matchCount : ℕ := (inp.interest_fields.map (fun interest =>
      school.strengths.countP (fun strength =>
        strIn (lowerStr interest) (lowerStr strength) || strIn (lowerStr strength) (lowerStr interest)))).sum
    min 20 (((matchCount : ℚ) / (inp.interest_fields.length : ℚ)) * 20)
  else 0

/-- `score_school` dimension 2: rank match, 15 points. -/
def us_rank_match (inp : Input) (school : USchool) : ℚ :=
  if inp.reputation_important then
    match school.rankTruthy? with
    | some r => max 0 (15 * (1 - (r : ℚ) / 300))
    | none => 0
  else 0

/-- `score_school` dimension 3: internship support, 10 points. -/
def us_internship (school : USchool) : ℚ :=
  min 10 (max 0 school.internship_support_score)

/-- `score_school` dimension 4: school-type preference, 10 points. -/
def us_school_type (inp : Input) (school : USchool) : ℚ :=
  if inp.school_type_preference ≠ "" then
    match school.type with
    | some t => if t ≠ "" ∧ lowerStr inp.school_type_preference = lowerStr t then 10 else 0
    | none => 0
  else 0

/-- `score_school` dimension 5: budget match, 10 points. -/
def us_budget_match (inp : Input) (school : USchool) : ℚ :=
  if inp.budget ≠ "" then
    match school.tuitionTruthy? with
    | some t =>
      (match parse_budget_max inp.budget with
       | some bm =>
         if bm ≠ 0 ∧ t ≤ bm then 10
         else if bm ≠ 0 then max 0 (10 * (1 - (t - bm) / bm))
         else 0
       | none => 0)
    | none => 0
  else 0

/-- `score_school` dimension 6: activity match, 15 points. -/
def us_activity_match (inp : Input) (school : USchool) : ℚ :=
  if inp.activities ≠ [] ∧ school.tags ≠ [] then
    let pairCount : ℕ := (inp.activities.map (fun activity =>
      activity_mappings.countP (fun m =>
        strIn m.1 activity && school.tags.contains m.2))).sum
    min 15 (2.5 * (pairCount : ℚ))
  else 0

/-- `score_school` dimension 7 (first half): acceptance rate, 5 points. -/
def us_acceptance (school : USchool) : ℚ :=
  match school.acceptanceRate with
  | some r =>
    if 0.15 ≤ r then 5
    else if 0.05 < r then 5 * (r - 0.05) / (0.15 - 0.05)
    else 0
  | none => 0

/-- `score_school` dimension 7 (second half): international rate, 5 points. -/
def us_intl (school : USchool) : ℚ :=
  match school.intlRate with
  | some r =>
    if 0.35 ≤ r then 5
    else if 0.03 < r then 5 * (r - 0.03) / (0.35 - 0.03)
    else 0
  | none => 0

/-- `score_school` dimension 9: region preference, 5 points. -/
def us_region (inp : Input) (school : USchool) : ℚ :=
  if inp.region_preference ≠ "" then
    (if strIn (lowerStr inp.region_preference) (lowerStr school.state)
        || strIn (lowerStr inp.region_preference) (lowerStr school.region) then 5 else 0)
  else 0

/-- The accumulated `total_score` of `score_school`, before rounding.
The dimensions appear in source order; dimension 8 ("personality fit") is
a `pass` in the source and contributes nothing. -/
def us_total (inp : Input) (school : USchool) : ℚ :=
  us_major_match inp school
  + us_rank_match inp school
  + us_internship school
  + us_school_type inp school
  + us_budget_match inp school
  + us_activity_match inp school
  + us_acceptance school
  + us_intl school
  + us_region inp school

/-- `score_school`: the 10-dimension 100-point scoring of the generic
market, rounded to two decimals. -/
def score_school (school : USchool) (inp : Input) : ℚ :=
  round2 (us_total inp school)

/-- The `chinese_to_english` interest-translation table. -/
def chinese_to_english : List (String × String) :=
  [("计算机科学", "computer science"), ("人工智能", "artificial intelligence"),
   ("工程学", "engineering"), ("商科", "business"), ("医学", "medicine"),
   ("艺术设计", "arts"), ("人文社科", "humanities"), ("自然科学", "natural sciences"),
   ("教育学", "education"), ("法学", "law"), ("公共政策", "public policy"),
   ("经济学", "economics"), ("物理学", "physics"), ("化学", "chemistry"),
   ("心理学", "psychology"), ("生物学", "biology"), ("创业", "entrepreneurship"),
   ("公共健康", "public health"), ("国际关系", "international relations"),
   ("政治学", "political science"), ("农业", "agriculture"), ("兽医学", "veterinary"),
   ("传播学", "communication"), ("电影学", "film"), ("海洋学", "oceanography"),
   ("药学", "pharmacy"), ("神学", "theology")]

/-- The `budget_map` of `build_hard_filters` (RMB bands → USD ceilings). -/
def budget_map : List (String × ℚ) :=
  [("35万-40万", 56000), ("40万-50万", 70000), ("50万-60万", 84000), ("60万+", 100000)]

/-- The `gpa_rank_map` of `build_hard_filters`. -/
def gpa_rank_map : List (String × ℚ) :=
  [("3.6-", 150), ("3.6+", 100), ("3.8+", 60), ("3.9+", 30)]

/-- The Mongo filter document `build_hard_filters` produces. -/
structure MongoFilters where
  country : String
  strengths_in : Option (List String)   -- `{"strengths": {"$in": [...]}}`, strict mode only
  tuition_lte : ℚ
  rank_lte : ℚ
deriving Repr, DecidableEq

/-- `build_hard_filters`: strict mode keeps the interest `$in` filter and
the tight budget/rank ceilings; loose mode drops the interest filter and
widens both ceilings by 50%. -/
def build_hard_filters (inp : Input) (strict_mode : Bool) : MongoFilters :=
  let english_interests := inp.interest_fields.map
    (fun interest => (chinese_to_english.lookup interest).getD interest)
  let max_tuition : ℚ := (budget_map.lookup inp.budget).getD 100000
  let max_rank : ℚ := (gpa_rank_map.lookup inp.gpa_range).getD 200
  { country := inp.target_country
    strengths_in := if strict_mode then some english_interests else none
    tuition_lte := if strict_mode then max_tuition else max_tuition * 1.5
    rank_lte := if strict_mode then max_rank else max_rank * 1.5 }

/-- Mongo matching for the three operator shapes `build_hard_filters`
emits: equality on `country`, `$in` against the array field `strengths`,
`$lte` on `tuition` and `rank`; a document without the field satisfies
neither equality nor `$lte`. -/
def mongoMatch (f : MongoFilters) (s : USchool) : Bool :=
  s.country == some f.country
  && (match f.strengths_in with
      | some lst => s.strengths.any (fun st => lst.contains st)
      | none => true)
  && (match s.tuition with
      | some t => decide (t ≤ f.tuition_lte)
      | none => false)
  && (match s.rank with
      | some r => decide ((r : ℚ) ≤ f.rank_lte)
      | none => false)

/-- The strict-mode query of `recommend_schools_for_parent`. -/
def us_strict_filtered (inp : Input) (docs : List USchool) : List USchool :=
  docs.filter (mongoMatch (build_hard_filters inp true))

/-- The supplement loop: walk the USA pool, adding up to ten schools whose
ids are not yet present. -/
def supplementAux : List USchool → List String → List USchool → List USchool
  | [], _, acc => acc.reverse
  | s :: rest, ids, acc =>
    if !(ids.contains s.oid) && acc.length < 10 then
      supplementAux rest (s.oid :: ids) (s :: acc)
    else supplementAux rest ids acc

/-- The filtering phase of `recommend_schools_for_parent`: strict query,
loose query if fewer than five hits, country-only query if still fewer
than five, then the random-supplement block when still fewer than five. -/
def recommend_filter_stage (inp : Input) (docs : List USchool) : List USchool :=
  let filtered := us_strict_filtered inp docs
  let filtered :=
    if filtered.length < 5 then docs.filter (mongoMatch (build_hard_filters inp false))
    else filtered
  let filtered :=
    if filtered.length < 5 then docs.filter (fun s => s.country == some inp.target_country)
    else filtered
  if filtered.length < 10 then
    if filtered.length < 5 then
      let all_us := docs.filter (fun s => s.country == some "USA")
      filtered ++ supplementAux all_us (filtered.map (fun s => s.oid)) []
    else filtered
  else filtered

/-- The ranking phase of `recommend_schools_for_parent`:
`sorted(scored_schools, key=lambda x: x[1], reverse=True)` — descending by
score only, stable (ties keep pool order). -/
def recommend_ranked (inp : Input) (docs : List USchool) : List (USchool × ℚ) :=
  let scored := (recommend_filter_stage inp docs).map (fun school => (school, score_school school inp))
  stableSortBy (fun a b => decide (b.2 ≤ a.2)) scored

/-- `recommend_schools_for_parent` (pure part): the ids of the top ten
schools. -/
def recommend_schools_for_parent (inp : Input) (docs : List USchool) : List String :=
  ((recommend_ranked inp docs).take 10).map (fun p => p.1.oid)

end US

/-! ## The market dispatcher (`routes/evals.py`, `create_parent_evaluation`) -/

/-- The four pipeline branches of `create_parent_evaluation`. -/
inductive MarketBranch where
  | au : MarketBranch
  | uk : MarketBranch
  | sg : MarketBranch
  | generic : MarketBranch
deriving Repr, DecidableEq

/-- The `if country == ... elif ... else` dispatch of
`create_parent_evaluation`: the final `else` branch is commented
"USA 或未指定 → 使用原有逻辑" and runs the legacy USA pipeline. -/
def dispatch_market (target_country : String) : MarketBranch :=
  if target_country == "Australia" then MarketBranch.au
  else if target_country == "United Kingdom" then MarketBranch.uk
  else if target_country == "Singapore" then MarketBranch.sg
  else MarketBranch.generic

namespace UK

/-! ## `generate_school_explanations` (`gpt/uk_evaluation.py`)

The function is embedded as `Option (List String)`: `none` models the
uncaught `ZeroDivisionError` raised by
`over_pct = int((tuition_usd - budget_usd) / budget_usd * 100)`
when `budget_usd` is zero and the tuition exceeds it.  All other
operations in the function are total. -/

/-- The budget line of the UK explanation generator (its only fallible
computation). -/
def uk_budget_desc (school : Doc) (inp : Input) : Option String :=
  let budget_usd := inp.budget_usd
  let tuition_usd := school.tuitionVal
  if tuition_usd ≤ budget_usd then
    some ("学费 £" ++ commaFmt tuition_usd ++ "/年，在您的预算范围内")
  else if budget_usd = 0 then none   -- ZeroDivisionError
  else
    let over_pct := pyInt (((tuition_usd - budget_usd : ℤ) : ℚ) / (budget_usd : ℚ) * 100)
    if inp.hard_budget_must_within || strIn "10%" inp.budget_tolerance
        || strIn "20%" inp.budget_tolerance then
      some ("学费 £" ++ commaFmt tuition_usd ++ "/年，超出预算约" ++ toString over_pct
            ++ "%（因放宽策略保留）")
    else
      some ("学费 £" ++ commaFmt tuition_usd ++ "/年，超出预算约" ++ toString over_pct ++ "%")

/-- `generate_school_explanations` (UK): the 6-to-10 readable lines for one
school.  The UK POST branch of the route calls this without a per-candidate
`try/except`. -/
def generate_school_explanations (school : Doc) (inp : Input) : Option (List String) :=
  -- 1. academic tier
  let rank := school.rankVal
  let band_map := [("3.9+", "1-50"), ("3.8+", "1-100"), ("3.6+", "50-200"), ("3.6-", "100-300")]
  let target_range := (band_map.lookup inp.academic_band).getD "100-300"
  let level_desc :=
    if rank ≤ 50 then "与您的目标层级（Top 50）匹配"
    else if rank ≤ 100 then "接近您的目标层级（Top 100）"
    else if rank ≤ 200 then
      "略超您的目标层级（目标" ++ target_range ++ "，该校排名" ++ toString rank ++ "）"
    else "超出目标范围（目标" ++ target_range ++ "，该校排名" ++ toString rank ++ "）"
  let line1 := "🎓 学术层级：" ++ level_desc ++ "（全球排名 #" ++ toString rank ++ "）"
  -- 2. major match
  let interests := _normalize_list inp.interests
  let strengths := _normalize_list school.strengths
  let matched := interests.filter (fun interest =>
    let interest_norm := _normalize_strengths [interest]
    strengths.any (fun strength =>
      let strength_norm := _normalize_strengths [strength]
      interest_norm.any (fun i => strength_norm.any (fun s => strIn i s))
      || interest_norm.any (fun i => strength_norm.any (fun s => strIn s i))))
  let line2 :=
    if matched ≠ [] then
      "📚 专业匹配：与您选择的 " ++ toString matched.length ++ "/"
      ++ toString (if interests ≠ [] then interests.length else 1) ++ " 个方向匹配（"
      ++ String.intercalate ", " (matched.take 3)
      ++ (if 3 < matched.length then "..." else "") ++ "）"
    else "📚 专业匹配：部分匹配您选择的专业方向"
  -- 3. budget (fallible: division by a zero budget)
  (uk_budget_desc school inp).bind (fun budget_desc =>
  let line3 := "💰 学费：" ++ budget_desc
  -- 4. UCAS route
  let ucas_type := school.ucas_deadline_type.getD ""
  let line4 :=
    if inp.ucas_route == "Oxbridge/医学类" then
      if strIn "Oxbridge/Med(10/15)" ucas_type then
        "📋 UCAS路线：Oxbridge/医学类（10/15截止） - 符合您的选择 ✓"
      else "📋 UCAS路线：常规路线（该校非Oxbridge/Med）"
    else if inp.ucas_route == "常规路线" then
      if strIn "Main(1/31)" ucas_type then
        "📋 UCAS路线：常规路线（1/31截止） - 符合您的选择 ✓"
      else "📋 UCAS路线：" ++ (if ucas_type != "" then ucas_type else "未明确")
           ++ "（与常规路线部分匹配）"
    else "📋 UCAS路线：" ++ (if ucas_type != "" then ucas_type else "未明确")
         ++ "（您选择：不确定）"
  -- 5. placement year
  let line5 :=
    if school.placement_year_available then
      "🧑‍💼 Placement Year：有（第3年企业实习，学制通常多1年）"
    else if inp.placement_year_pref == "必须" then
      "🧑‍💼 Placement Year：无（因放宽策略保留，分值较低）"
    else "🧑‍💼 Placement Year：无（您选择：" ++ inp.placement_year_pref ++ "）"
  -- 6. Russell group
  let line6 :=
    if school.russell_group then
      "🏛️ 罗素集团：是（英国名校联盟成员，与您的偏好：" ++ inp.russell_pref ++ "匹配）"
    else "🏛️ 罗素集团：否（与您的偏好：" ++ inp.russell_pref ++ "，此项未满足）"
  -- 7. preparation readiness
  let test_info :=
    match school.admissions_tests with
    | some s => if s != "" then "需入学测试（" ++ s ++ "）；" else "无需入学测试；"
    | none => "无需入学测试；"
  let line7 := "📄 材料就绪：" ++ test_info ++ "您的准备度：" ++ inp.prep_level ++ " → 评分已考虑"
  -- 8. region / environment
  let city := school.city.getD ""
  let region_match :=
    if inp.region_pref == "不限" then "位于 " ++ city ++ "（您选择：不限）"
    else
      let city_norm := lowerStr city
      let region_norm := _normalize_region inp.region_pref
      if region_norm == "london" && city_norm == "london" then
        "位于 " ++ city ++ "（与您的偏好：命中）"
      else if strIn region_norm city_norm || strIn city_norm region_norm then
        "位于 " ++ city ++ "（与您的偏好：部分匹配）"
      else "位于 " ++ city ++ "（与您的偏好：未命中）"
  let intl_pct : ℤ :=
    match school.intlRate with
    | some r => if r != 0 then pyInt (r * 100) else 0
    | none => 0
  let line8 := "📍 地域/环境：" ++ region_match ++ "；国际生比例约 " ++ toString intl_pct
               ++ "%（与您\x27环境" ++ inp.intl_env_importance ++ "\x27偏好匹配度说明）"
  -- 9. foundation (only when a foundation need was stated)
  let lines9 :=
    if inp.foundation_need != "不需要" then
      [if school.foundation_available then
        "📚 Foundation/国际大一：有（成绩不够可先读预科再衔接）"
      else "📚 Foundation/国际大一：无（此校无预科/国际大一，因放宽策略保留）"]
    else []
  -- 10. fallback annotation
  let lines10 :=
    if inp.fallback_applied_key && inp.fallback_reason_key != "" then
      ["⚠️ 放宽说明：" ++ inp.fallback_reason_key]
    else []
  some ([line1, line2, line3, line4, line5, line6, line7, line8] ++ lines9 ++ lines10))

/-- The per-candidate explanation loop of the UK POST branch of
`create_parent_evaluation` (`routes/evals.py`): unlike the AU POST branch
and all three GET branches, there is no per-candidate `try/except`, so one
school's failure aborts the whole loop (and the route's outer handler
turns it into an HTTP 500 for the entire request). -/
def uk_schools_with_explanations (inp : Input) (schools : List Doc) :
    Option (List (List String)) :=
  schools.mapM (fun school => generate_school_explanations school inp)

end UK

/-! ## Bounds of the per-dimension scoring functions -/

theorem rank_weight_bounds (p : String) :
    0 ≤ UK.rank_weight p ∧ UK.rank_weight p ≤ 1.2 := by
  unfold UK.rank_weight
  split_ifs <;> norm_num

theorem uk_score_rank_bounds (r : ℤ) (b : ℤ × ℤ) (w : ℚ) (hw : 0 ≤ w) :
    0 ≤ UK._score_rank r b w ∧ UK._score_rank r b w ≤ 10 * w := by
  unfold UK._score_rank
  dsimp only
  set e := (if r < b.1 then b.1 else b.2) with he
  have hk : (0 : ℤ) ≤ (|r - e| + 49) / 50 :=
    Int.ediv_nonneg (by positivity) (by norm_num)
  have hkq : (0 : ℚ) ≤ (((|r - e| + 49) / 50 : ℤ) : ℚ) := by exact_mod_cast hk
  constructor
  · split_ifs
    · positivity
    · exact mul_nonneg (le_max_left _ _) hw
  · split_ifs
    · exact le_refl _
    · exact mul_le_mul_of_nonneg_right (max_le (by norm_num) (by linarith)) hw

theorem uk_score_interests_bounds (sel str : List String) :
    0 ≤ UK._score_interests sel str ∧ UK._score_interests sel str ≤ 20 := by
  unfold UK._score_interests
  dsimp only
  split_ifs
  · norm_num
  · constructor
    · refine le_min (by norm_num) ?_
      positivity
    · exact min_le_left _ _

theorem uk_score_budget_bounds (t b : ℤ) :
    0 ≤ UK._score_budget t b ∧ UK._score_budget t b ≤ 10 := by
  unfold UK._score_budget
  split_ifs with h1 h2
  · norm_num
  · norm_num
  · constructor
    · exact le_max_left _ _
    · refine max_le (by norm_num) ?_
      have hb : (0 : ℚ) < (b : ℚ) := by exact_mod_cast lt_of_not_le h1
      have htb : (b : ℚ) < (t : ℚ) := by exact_mod_cast lt_of_not_le h2
      have : 0 ≤ ((t - b : ℤ) : ℚ) / (b : ℚ) := by
        apply div_nonneg _ hb.le
        push_cast
        linarith
      linarith

theorem uk_score_ucas_bounds (route : String) (t : Option String) (ip : String) :
    0 ≤ UK._score_ucas route t ip ∧ UK._score_ucas route t ip ≤ 10 := by
  unfold UK._score_ucas
  dsimp only
  refine ⟨le_min (by norm_num) ?_, min_le_left _ _⟩
  have hbase : (0 : ℚ) ≤
      (if route == "Oxbridge/医学类" then (if strIn "Oxbridge/Med(10/15)" (t.getD "") then 10 else 0)
       else if route == "常规路线" then (if strIn "Main(1/31)" (t.getD "") then 10 else 5)
       else 6) := by
    split_ifs <;> norm_num
  have hbonus : (0 : ℚ) ≤
      (if ip == "尽快（下6–12个月）" && (strIn "Main(1/31)" (t.getD "") || strIn "Oxbridge/Med(10/15)" (t.getD "")) then 2
       else if ip == "1–2年内" && t.getD "" ≠ "" then 1
       else 0) := by
    split_ifs <;> norm_num
  linarith

theorem uk_score_placement_bounds (p : String) (a : Bool) :
    0 ≤ UK._score_placement p a ∧ UK._score_placement p a ≤ 10 := by
  unfold UK._score_placement
  split_ifs <;> norm_num

theorem uk_score_russell_bounds (p : String) (r : Bool) :
    0 ≤ UK._score_russell p r ∧ UK._score_russell p r ≤ 10 := by
  unfold UK._score_russell
  split_ifs <;> norm_num

theorem uk_score_ps_readiness_bounds (level : String) (w : Option ℤ) :
    0 ≤ UK._score_ps_readiness level w ∧ UK._score_ps_readiness level w ≤ 10 := by
  unfold UK._score_ps_readiness
  dsimp only
  refine ⟨le_min (by norm_num) ?_, min_le_left _ _⟩
  set w0 : ℤ := (match w with
    | some v => if v = 0 then 1 else v
    | none => 1) with hw0
  have h1 : (1 : ℤ) ≤ max 1 (min 10 w0) := le_max_left _ _
  have hnorm : (0 : ℚ) ≤ ((max 1 (min 10 w0) - 1 : ℤ) : ℚ) / 9 * 6 := by
    have h0 : (0 : ℚ) ≤ ((max 1 (min 10 w0) - 1 : ℤ) : ℚ) := by
      exact_mod_cast (by omega : (0 : ℤ) ≤ max 1 (min 10 w0) - 1)
    positivity
  have hcoef : (0 : ℚ) ≤ (if level == "高" then 1 else if level == "中" then 0.6 else 0.3) := by
    split_ifs <;> norm_num
  nlinarith

theorem uk_score_tests_bounds (level : String) (t : Option String) :
    0 ≤ UK._score_tests level t ∧ UK._score_tests level t ≤ 5 := by
  unfold UK._score_tests
  dsimp only
  split_ifs <;> norm_num

theorem uk_score_region_bounds (p c : String) :
    0 ≤ UK._score_region p c ∧ UK._score_region p c ≤ 7 := by
  unfold UK._score_region
  dsimp only
  split_ifs <;> norm_num

theorem uk_score_intl_bounds (p : String) (r : Option ℚ) :
    0 ≤ UK._score_intl_community p r ∧ UK._score_intl_community p r ≤ 5 := by
  unfold UK._score_intl_community
  dsimp only
  split_ifs
  · have hlo : (0.1 : ℚ) ≤ max 0.1 (min 0.35 (rateVal r)) := le_max_left _ _
    have hhi : max 0.1 (min 0.35 (rateVal r)) ≤ 0.35 :=
      max_le (by norm_num) (min_le_left _ _)
    have hdiv : (5 : ℚ) * ((max 0.1 (min 0.35 (rateVal r)) - 0.1) / 0.25)
        = 20 * (max 0.1 (min 0.35 (rateVal r)) - 0.1) := by ring
    rw [hdiv]
    constructor <;> linarith
  · norm_num
  · norm_num

theorem sg_score_budget15_bounds (t b : ℤ) :
    0 ≤ SG._score_budget15 t b ∧ SG._score_budget15 t b ≤ 15 := by
  unfold SG._score_budget15
  split_ifs with h1 h2
  · norm_num
  · norm_num
  · constructor
    · exact le_max_left _ _
    · refine max_le (by norm_num) ?_
      have hb : (0 : ℚ) < (b : ℚ) := by exact_mod_cast lt_of_not_le h1
      have : 0 ≤ ((t - b : ℤ) : ℚ) / (b : ℚ) := by
        apply div_nonneg _ hb.le
        have htb : (b : ℚ) < (t : ℚ) := by exact_mod_cast lt_of_not_le h2
        push_cast
        linarith
      linarith

theorem sg_score_orientation_bounds (o : String) (ils : Option ℤ) (c : Bool) :
    0 ≤ SG._score_orientation o ils c ∧ SG._score_orientation o ils c ≤ 15 := by
  unfold SG._score_orientation
  dsimp only
  set s0 : ℤ := max 1 (min 10 (ils.getD 0)) with hs0
  have h1q : (1 : ℚ) ≤ (s0 : ℚ) := by
    exact_mod_cast (le_max_left 1 (min 10 (ils.getD 0)))
  have hbase9 : (0 : ℚ) ≤ ((s0 : ℚ) - 1) / 9 := div_nonneg (by linarith) (by norm_num)
  have hmin : ∀ x : ℚ, 0 ≤ x → 0 ≤ min (15 : ℚ) x ∧ min (15 : ℚ) x ≤ 15 :=
    fun x hx => ⟨le_min (by norm_num) hx, min_le_left _ _⟩
  split_ifs
  · exact hmin _ (by push_cast; linarith)
  · exact hmin _ (by push_cast; linarith)
  · norm_num
  · norm_num
  · exact hmin _ (by push_cast; linarith)
  · exact hmin _ (by push_cast; linarith)

theorem sg_score_tg_bond_bounds (p : String) (a : Bool) (b : Option ℚ) :
    0 ≤ SG._score_tg_bond p a b ∧ SG._score_tg_bond p a b ≤ 5 := by
  unfold SG._score_tg_bond
  split_ifs <;> norm_num

theorem sg_score_interview_bounds (r : String) (ni np : Bool) :
    0 ≤ SG._score_interview_portfolio r ni np ∧ SG._score_interview_portfolio r ni np ≤ 10 := by
  unfold SG._score_interview_portfolio
  split_ifs <;> norm_num

theorem sg_score_double_bounds (n : Bool) (tags : List String) :
    0 ≤ SG._score_double_degree n tags ∧ SG._score_double_degree n tags ≤ 5 := by
  unfold SG._score_double_degree
  dsimp only
  split_ifs <;> norm_num

theorem sg_score_exchange_bounds (n : Bool) (e : Option ℤ) :
    0 ≤ SG._score_exchange n e ∧ SG._score_exchange n e ≤ 5 := by
  unfold SG._score_exchange
  dsimp only
  split_ifs
  · norm_num
  · have h0 : (0 : ℤ) ≤ max 0 (min 10 (e.getD 0)) := le_max_left _ _
    have h10 : max 0 (min 10 (e.getD 0)) ≤ 10 := max_le (by norm_num) (min_le_left _ _)
    have h0q : (0 : ℚ) ≤ ((max 0 (min 10 (e.getD 0)) : ℤ) : ℚ) := by exact_mod_cast h0
    have h10q : ((max 0 (min 10 (e.getD 0)) : ℤ) : ℚ) ≤ 10 := by exact_mod_cast h10
    constructor
    · positivity
    · have : ((max 0 (min 10 (e.getD 0)) : ℤ) : ℚ) / 10 * 5
          = ((max 0 (min 10 (e.getD 0)) : ℤ) : ℚ) / 2 := by ring
      rw [this]
      linarith

theorem sg_score_safety_bounds (p : String) (s : Option ℚ) :
    0 ≤ SG._score_safety p s ∧ SG._score_safety p s ≤ 5 := by
  unfold SG._score_safety
  dsimp only
  have h0 : (0 : ℚ) ≤ max 0 (min 10 (s.getD 3)) := le_max_left _ _
  have h10 : max 0 (min 10 (s.getD 3)) ≤ 10 := max_le (by norm_num) (min_le_left _ _)
  split_ifs
  · have : max 0 (min 10 (s.getD 3)) / 10 * 5 = max 0 (min 10 (s.getD 3)) / 2 := by ring
    rw [this]
    constructor <;> linarith
  · norm_num
  · norm_num

theorem sg_score_scholarship_bounds (p : String) (h : Bool) :
    0 ≤ SG._score_scholarship p h ∧ SG._score_scholarship p h ≤ 10 := by
  unfold SG._score_scholarship
  split_ifs <;> norm_num

/-- The SG total is the sum of ten bounded dimensions: it always lies in
`[0, 102]` (rank at most `10 × 1.2 = 12`, then `20+15+15+5+10+5+5+5+10`). -/
theorem sg_total_bounds (inp : Input) (d : Doc) :
    0 ≤ SG.sg_total inp d ∧ SG.sg_total inp d ≤ 102 := by
  unfold SG.sg_total SG._score_rank SG._score_interests SG._rank_band SG._normalize_list
  dsimp only
  have hw := rank_weight_bounds inp.reputation_vs_value
  have h1 := uk_score_rank_bounds d.rankVal (UK._rank_band inp.academic_band)
    (UK.rank_weight inp.reputation_vs_value) hw.1
  have h1' : UK._score_rank d.rankVal (UK._rank_band inp.academic_band)
      (UK.rank_weight inp.reputation_vs_value) ≤ 12 := by
    have := h1.2
    nlinarith [hw.2]
  have h2 := uk_score_interests_bounds (UK._normalize_list inp.interests)
    (UK._normalize_list d.strengths)
  have h3 := sg_score_budget15_bounds d.tuitionVal inp.budget_usd
  have h4 := sg_score_orientation_bounds inp.orientation d.industry_links_score
    d.coop_or_internship_required
  have h5 := sg_score_tg_bond_bounds inp.bond_acceptance d.tuition_grant_available
    d.tuition_grant_bond_years
  have h6 := sg_score_interview_bounds inp.interview_portfolio d.interview_required
    d.essay_or_portfolio_required
  have h7 := sg_score_double_bounds inp.want_double_degree (UK._normalize_list d.tags)
  have h8 := sg_score_exchange_bounds inp.want_exchange d.exchange_opportunities_score
  have h9 := sg_score_safety_bounds inp.safety_importance d.safety_score
  have h10 := sg_score_scholarship_bounds inp.scholarship_importance d.scholarship_available
  constructor
  · linarith [h1.1, h2.1, h3.1, h4.1, h5.1, h6.1, h7.1, h8.1, h9.1, h10.1]
  · linarith [h2.2, h3.2, h4.2, h5.2, h6.2, h7.2, h8.2, h9.2, h10.2]

theorem au_score_rank_bounds (r : ℤ) (b : ℤ × ℤ) (w : ℚ) (hw : 0 ≤ w) :
    0 ≤ AU._score_rank r b w ∧ AU._score_rank r b w ≤ 10 * w := by
  unfold AU._score_rank
  dsimp only
  set e := (if r < b.1 then b.1 else b.2) with he
  have hk : (0 : ℤ) ≤ (|r - e| + 49) / 50 :=
    Int.ediv_nonneg (by positivity) (by norm_num)
  have hkq : (0 : ℚ) ≤ (((|r - e| + 49) / 50 : ℤ) : ℚ) := by exact_mod_cast hk
  constructor
  · split_ifs
    · positivity
    · exact mul_nonneg (le_max_left _ _) hw
  · split_ifs
    · exact le_refl _
    · exact mul_le_mul_of_nonneg_right (max_le (by norm_num) (by linarith)) hw

theorem au_score_interests_bounds (sel str : List String) :
    0 ≤ AU._score_interests sel str ∧ AU._score_interests sel str ≤ 20 := by
  unfold AU._score_interests
  dsimp only
  split_ifs
  · norm_num
  · constructor
    · refine le_min (by norm_num) ?_
      positivity
    · exact min_le_left _ _

theorem au_score_wil_bounds (p : String) (w : Bool) (r : Option ℚ) (cf : String)
    (hr : 0 ≤ rateVal r) :
    0 ≤ AU._score_wil p w r cf ∧ AU._score_wil p w r cf ≤ 10 := by
  unfold AU._score_wil
  dsimp only
  have hw : (0 : ℚ) ≤ (if cf == "就业口碑" && rateVal r > 0 then 1.2
      else if cf == "带实习标签" && w then 1.3 else 1) := by
    split_ifs <;> norm_num
  set pw : ℚ := (if cf == "就业口碑" && rateVal r > 0 then 1.2
      else if cf == "带实习标签" && w then 1.3 else 1) with hpw
  have h3 : 0 ≤ min 3 (rateVal r * 3 * pw) := le_min (by norm_num) (by positivity)
  have h3' : min 3 (rateVal r * 3 * pw) ≤ 3 := min_le_left _ _
  have h2 : 0 ≤ min 2 (rateVal r * 2 * pw) := le_min (by norm_num) (by positivity)
  have h2' : min 2 (rateVal r * 2 * pw) ≤ 2 := min_le_left _ _
  split_ifs <;> constructor <;> linarith

theorem au_score_study_length_bounds (p : String) (l : Option ℚ) :
    0 ≤ AU._score_study_length p l ∧ AU._score_study_length p l ≤ 5 := by
  unfold AU._score_study_length
  rcases l with _ | len
  · norm_num
  · dsimp only
    split_ifs with h1 h2
    · norm_num
    · have hlen : (3.5 : ℚ) < len := lt_of_not_le h2
      constructor
      · have : (2 : ℚ) ≤ max 2 (5 - (len - 3.5) * 2) := le_max_left _ _
        linarith
      · refine max_le (by norm_num) (by linarith)
    · norm_num
    · norm_num
    · norm_num

theorem au_score_intakes_bounds (p : String) (i : Option String) :
    0 ≤ AU._score_intakes p i ∧ AU._score_intakes p i ≤ 5 := by
  unfold AU._score_intakes
  dsimp only
  split_ifs <;> norm_num

theorem au_score_go8_bounds (p : String) (g : Bool) :
    0 ≤ AU._score_go8 p g ∧ AU._score_go8 p g ≤ 8 := by
  unfold AU._score_go8
  split_ifs <;> norm_num

theorem au_score_city_bounds (pc : List String) (c : String) :
    0 ≤ AU._score_city pc c ∧ AU._score_city pc c ≤ 6 := by
  unfold AU._score_city
  dsimp only
  split_ifs <;> norm_num

theorem au_score_psw_bounds (im : String) (y : Option ℚ) :
    0 ≤ AU._score_psw im y ∧ AU._score_psw im y ≤ 8 := by
  unfold AU._score_psw
  dsimp only
  have hlo : (2 : ℚ) ≤ max 2 (min 4 (y.getD 2)) := le_max_left _ _
  have hhi : max 2 (min 4 (y.getD 2)) ≤ 4 := max_le (by norm_num) (min_le_left _ _)
  split_ifs
  · have : (8 : ℚ) * ((max 2 (min 4 (y.getD 2)) - 2) / 2) = 4 * (max 2 (min 4 (y.getD 2)) - 2) := by
      ring
    rw [this]
    constructor <;> linarith
  · norm_num
  · norm_num

theorem au_score_english_bounds (rd : String) (req acc : Bool) :
    0 ≤ AU._score_english rd req acc ∧ AU._score_english rd req acc ≤ 6 := by
  unfold AU._score_english
  split_ifs <;> norm_num

theorem au_score_intl_bounds (p : String) (r : Option ℚ) :
    0 ≤ AU._score_intl_community p r ∧ AU._score_intl_community p r ≤ 6 := by
  unfold AU._score_intl_community
  dsimp only
  split_ifs
  · have hlo : (0.1 : ℚ) ≤ max 0.1 (min 0.6 (rateVal r)) := le_max_left _ _
    have hhi : max 0.1 (min 0.6 (rateVal r)) ≤ 0.6 :=
      max_le (by norm_num) (min_le_left _ _)
    have hdiv : (6 : ℚ) * ((max 0.1 (min 0.6 (rateVal r)) - 0.1) / 0.5)
        = 12 * (max 0.1 (min 0.6 (rateVal r)) - 0.1) := by ring
    rw [hdiv]
    constructor <;> linarith
  · norm_num
  · norm_num

theorem au_score_scholarship_bounds (p : String) (h : Bool) :
    0 ≤ AU._score_scholarship p h ∧ AU._score_scholarship p h ≤ 6 := by
  unfold AU._score_scholarship
  split_ifs <;> norm_num

/-- The AU total is the sum of twelve bounded dimensions: it always lies
below `102` (rank at most `10 × 1.2 = 12`, then `20+10+10+8+6+8+6+6+6+5+5`),
and is nonnegative whenever the candidate's `placement_rate` is not
negative (a negative rate — nonsensical data — could drive the WIL
dimension below zero). -/
theorem au_total_bounds (inp : Input) (d : Doc) :
    AU.au_total inp d ≤ 102
    ∧ (0 ≤ rateVal d.placement_rate → 0 ≤ AU.au_total inp d) := by
  unfold AU.au_total
  dsimp only
  have hw := rank_weight_bounds inp.reputation_vs_value
  have h1 := au_score_rank_bounds d.rankVal (AU._rank_band_for_academic inp.academic_band)
    (UK.rank_weight inp.reputation_vs_value) hw.1
  have h1' : AU._score_rank d.rankVal (AU._rank_band_for_academic inp.academic_band)
      (UK.rank_weight inp.reputation_vs_value) ≤ 12 := by
    have := h1.2
    nlinarith [hw.2]
  have h2 := au_score_interests_bounds (AU._normalize_list inp.interests)
    (AU._normalize_list d.strengths)
  have h3 : 0 ≤ AU._score_budget d.tuitionVal inp.budget_usd
      ∧ AU._score_budget d.tuitionVal inp.budget_usd ≤ 10 :=
    uk_score_budget_bounds d.tuitionVal inp.budget_usd
  have h5 := au_score_go8_bounds inp.go8_preference d.group_of_eight
  have h6 := au_score_city_bounds (AU.au_pref_cities inp) d.cityStr
  have h7 := au_score_psw_bounds inp.psw_importance d.post_study_visa_years
  have h8 := au_score_english_bounds inp.english_readiness d.requires_english_test
    inp.accept_language_course
  have h9 := au_score_intl_bounds inp.intl_community_importance d.intlRate
  have h10 := au_score_scholarship_bounds inp.scholarship_importance d.scholarship_available
  have h11 := au_score_study_length_bounds inp.study_length_preference d.study_length_years
  have h12 := au_score_intakes_bounds inp.intake_preference d.intakes
  have h4hi : AU._score_wil inp.wil_preference d.work_integrated_learning d.placement_rate
      inp.career_focus ≤ 10 := by
    unfold AU._score_wil
    dsimp only
    split_ifs <;>
      first
        | (refine le_trans (add_le_add_left (min_le_left _ _) _) (by norm_num))
        | norm_num
  constructor
  · linarith [h1.1, h2.2, h3.2, h5.2, h6.2, h7.2, h8.2, h9.2, h10.2, h11.2, h12.2]
  · intro hr
    have h4 := au_score_wil_bounds inp.wil_preference d.work_integrated_learning
      d.placement_rate inp.career_focus hr
    linarith [h1.1, h2.1, h3.1, h4.1, h5.1, h6.1, h7.1, h8.1, h9.1, h10.1, h11.1, h12.1]

theorem pyFloat_nonneg {s : String} {v : ℚ} (h : US.pyFloat? s = some v) : 0 ≤ v := by
  unfold US.pyFloat? at h
  dsimp only at h
  split_ifs at h
  rw [← Option.some.inj h]
  positivity

theorem parse_budget_max_nonneg {s : String} {v : ℚ}
    (h : US.parse_budget_max s = some v) : 0 ≤ v := by
  unfold US.parse_budget_max at h
  dsimp only at h
  split_ifs at h <;>
    first
      | (rcases Option.map_eq_some'.mp h with ⟨a, ha, rfl⟩
         have h0 := pyFloat_nonneg ha
         exact div_nonneg (mul_nonneg h0 (by norm_num)) (by norm_num))
      | (rcases Option.bind_eq_some.mp h with ⟨n, hn, h2⟩
         first
           | (rcases Option.map_eq_some'.mp h2 with ⟨a, ha, rfl⟩
              have h0 := pyFloat_nonneg ha
              exact mul_nonneg h0 (by norm_num))
           | exact pyFloat_nonneg h2)
      | exact pyFloat_nonneg h

theorem us_major_match_bounds (inp : Input) (s : US.USchool) :
    0 ≤ US.us_major_match inp s ∧ US.us_major_match inp s ≤ 20 := by
  unfold US.us_major_match
  dsimp only
  split_ifs
  · exact ⟨le_min (by norm_num) (by positivity), min_le_left _ _⟩
  · norm_num

theorem us_rank_match_bounds (inp : Input) (s : US.USchool)
    (hr : ∀ r, s.rankTruthy? = some r → 0 ≤ r) :
    0 ≤ US.us_rank_match inp s ∧ US.us_rank_match inp s ≤ 15 := by
  unfold US.us_rank_match
  split_ifs
  · rcases he : s.rankTruthy? with _ | r
    · norm_num
    · have h0 : (0 : ℚ) ≤ (r : ℚ) := by exact_mod_cast hr r he
      have hdiv : (0 : ℚ) ≤ (r : ℚ) / 300 := by positivity
      exact ⟨le_max_left _ _, max_le (by norm_num) (by linarith)⟩
  · norm_num

theorem us_internship_bounds (s : US.USchool) :
    0 ≤ US.us_internship s ∧ US.us_internship s ≤ 10 := by
  unfold US.us_internship
  exact ⟨le_min (by norm_num) (le_max_left _ _), min_le_left _ _⟩

theorem us_school_type_bounds (inp : Input) (s : US.USchool) :
    0 ≤ US.us_school_type inp s ∧ US.us_school_type inp s ≤ 10 := by
  unfold US.us_school_type
  split_ifs
  · rcases s.type with _ | t
    · norm_num
    · dsimp only
      split_ifs <;> norm_num
  · norm_num

theorem us_budget_match_bounds (inp : Input) (s : US.USchool) :
    0 ≤ US.us_budget_match inp s ∧ US.us_budget_match inp s ≤ 10 := by
  unfold US.us_budget_match
  split_ifs
  · rcases s.tuitionTruthy? with _ | t
    · norm_num
    · dsimp only
      rcases hb : US.parse_budget_max inp.budget with _ | bm
      · norm_num
      · have hbm : 0 ≤ bm := parse_budget_max_nonneg hb
        dsimp only
        split_ifs with h1 h2
        · norm_num
        · constructor
          · exact le_max_left _ _
          · refine max_le (by norm_num) ?_
            have hbm' : 0 < bm := lt_of_le_of_ne hbm (Ne.symm h2)
            have ht : bm < t := by
              rcases lt_or_le bm t with h | h
              · exact h
              · exact absurd ⟨h2, h⟩ h1
            have : 0 ≤ (t - bm) / bm := div_nonneg (by linarith) hbm
            linarith
        · norm_num
  · norm_num

theorem us_activity_match_bounds (inp : Input) (s : US.USchool) :
    0 ≤ US.us_activity_match inp s ∧ US.us_activity_match inp s ≤ 15 := by
  unfold US.us_activity_match
  dsimp only
  split_ifs
  · exact ⟨le_min (by norm_num) (by positivity), min_le_left _ _⟩
  · norm_num

theorem us_acceptance_bounds (s : US.USchool) :
    0 ≤ US.us_acceptance s ∧ US.us_acceptance s ≤ 5 := by
  unfold US.us_acceptance
  rcases s.acceptanceRate with _ | r
  · norm_num
  · dsimp only
    split_ifs with h1 h2
    · norm_num
    · have he : (5 : ℚ) * (r - 0.05) / (0.15 - 0.05) = 50 * (r - 0.05) := by ring
      rw [he]
      have : r < 0.15 := lt_of_not_le h1
      constructor <;> linarith
    · norm_num

theorem us_intl_bounds (s : US.USchool) :
    0 ≤ US.us_intl s ∧ US.us_intl s ≤ 5 := by
  unfold US.us_intl
  rcases s.intlRate with _ | r
  · norm_num
  · dsimp only
    split_ifs with h1 h2
    · norm_num
    · have he : (5 : ℚ) * (r - 0.03) / (0.35 - 0.03) = 125 / 8 * (r - 0.03) := by ring
      rw [he]
      have : r < 0.35 := lt_of_not_le h1
      constructor <;> linarith
    · norm_num

theorem us_region_bounds (inp : Input) (s : US.USchool) :
    0 ≤ US.us_region inp s ∧ US.us_region inp s ≤ 5 := by
  unfold US.us_region
  split_ifs <;> norm_num

/-- The generic-market total is the sum of nine bounded dimensions: for a
candidate whose (truthy) rank is nonnegative it lies in `[0, 95]`
(`20+15+10+10+10+15+5+5+5`; a negative rank — nonsensical data — could
drive the rank dimension above its 15-point cap). -/
theorem us_total_bounds (inp : Input) (s : US.USchool)
    (hr : ∀ r, s.rankTruthy? = some r → 0 ≤ r) :
    0 ≤ US.us_total inp s ∧ US.us_total inp s ≤ 95 := by
  unfold US.us_total
  have h1 := us_major_match_bounds inp s
  have h2 := us_rank_match_bounds inp s hr
  have h3 := us_internship_bounds s
  have h4 := us_school_type_bounds inp s
  have h5 := us_budget_match_bounds inp s
  have h6 := us_activity_match_bounds inp s
  have h7 := us_acceptance_bounds s
  have h8 := us_intl_bounds s
  have h9 := us_region_bounds inp s
  constructor
  · linarith [h1.1, h2.1, h3.1, h4.1, h5.1, h6.1, h7.1, h8.1, h9.1]
  · linarith [h1.2, h2.2, h3.2, h4.2, h5.2, h6.2, h7.2, h8.2, h9.2]

/-- The UK total is the sum of ten bounded dimensions: it always lies in
`[0, 99]` (rank at most `10 × 1.2 = 12`, then `20+10+10+10+10+10+5+7+5`). -/
theorem uk_total_bounds (inp : Input) (d : Doc) :
    0 ≤ UK.uk_total inp d ∧ UK.uk_total inp d ≤ 99 := by
  unfold UK.uk_total
  dsimp only
  have hw := rank_weight_bounds inp.reputation_vs_value
  have h1 := uk_score_rank_bounds d.rankVal (UK._rank_band inp.academic_band)
    (UK.rank_weight inp.reputation_vs_value) hw.1
  have h1' : UK._score_rank d.rankVal (UK._rank_band inp.academic_band)
      (UK.rank_weight inp.reputation_vs_value) ≤ 12 := by
    have := h1.2
    nlinarith [hw.2]
  have h2 := uk_score_interests_bounds (UK._normalize_list inp.interests)
    (UK._normalize_list d.strengths)
  have h3 := uk_score_budget_bounds d.tuitionVal inp.budget_usd
  have h4 := uk_score_ucas_bounds inp.ucas_route d.ucas_deadline_type inp.intake_preference
  have h5 := uk_score_placement_bounds inp.placement_year_pref d.placement_year_available
  have h6 := uk_score_russell_bounds inp.russell_pref d.russell_group
  have h7 := uk_score_ps_readiness_bounds inp.prep_level d.personal_statement_weight
  have h8 := uk_score_tests_bounds inp.prep_level d.admissions_tests
  have h9 := uk_score_region_bounds inp.region_pref d.cityStr
  have h10 := uk_score_intl_bounds inp.intl_env_importance d.intlRate
  constructor
  · linarith [h1.1, h2.1, h3.1, h4.1, h5.1, h6.1, h7.1, h8.1, h9.1, h10.1]
  · linarith [h2.2, h3.2, h4.2, h5.2, h6.2, h7.2, h8.2, h9.2, h10.2]

/-! ## General helper lemmas -/

theorem round2_le_intCast {t : ℚ} {n : ℤ} (h : t ≤ (n : ℚ)) : round2 t ≤ (n : ℚ) := by
  have := round2_mono h
  rwa [round2_intCast] at this

theorem intCast_le_round2 {t : ℚ} {n : ℤ} (h : (n : ℚ) ≤ t) : (n : ℚ) ≤ round2 t := by
  have := round2_mono h
  rwa [round2_intCast] at this

theorem take_ne_nil {l : List α} (h : l ≠ []) {n : ℕ} (hn : n ≠ 0) : l.take n ≠ [] := by
  cases l with
  | nil => exact absurd rfl h
  | cons a t =>
    cases n with
    | zero => exact absurd rfl hn
    | succ m => simp

theorem map_ne_nil {l : List α} (h : l ≠ []) (f : α → β) : l.map f ≠ [] := by
  cases l with
  | nil => exact absurd rfl h
  | cons a t => simp

/-! ## C7 — market dispatch of an unknown/missing market -/

/-- C7 (counterexample): a request whose profile declares an unknown target
market ("France") or no market at all ("") is routed to the generic (USA)
pipeline branch of `create_parent_evaluation`; no configuration error is
raised and no error path exists in the dispatch at all, contradicting the
claim that an unknown or missing market fails with a configuration error. -/
theorem C7_counterexample :
    dispatch_market "France" = MarketBranch.generic
    ∧ dispatch_market "" = MarketBranch.generic := by
  constructor <;> rfl

/-- C7 (amended): every target market other than "Australia",
"United Kingdom" and "Singapore" — unknown and missing markets included —
is dispatched to the generic (USA) legacy pipeline; the dispatcher never
fails and never surfaces a configuration error. -/
theorem C7_amended_unknown_market_uses_generic :
    ∀ c : String, c ≠ "Australia" → c ≠ "United Kingdom" → c ≠ "Singapore" →
      dispatch_market c = MarketBranch.generic := by
  intro c h1 h2 h3
  unfold dispatch_market
  split_ifs with g1 g2 g3
  · exact absurd (by simpa using g1) h1
  · exact absurd (by simpa using g2) h2
  · exact absurd (by simpa using g3) h3
  · rfl

/-- Witness for C7 (amended) at the concrete unknown market "France". -/
theorem C7_amended_unknown_market_uses_generic_witness :
    dispatch_market "France" = MarketBranch.generic :=
  C7_amended_unknown_market_uses_generic "France" (by decide) (by decide) (by decide)

/-! ## C3 — the weight-modulated rank dimension vs its nominal cap -/

/-- C3 (counterexample): with the reputation-first preference the UK
`_score_rank` returns `12` for an in-band rank — `10 × 1.2`, strictly more
than the dimension's nominal 10-point cap, contradicting the claim that the
modulated contribution never exceeds the cap. -/
theorem C3_counterexample :
    UK._score_rank 10 (UK._rank_band "3.9+") (UK.rank_weight "名气优先") = 12
    ∧ ¬ UK._score_rank 10 (UK._rank_band "3.9+") (UK.rank_weight "名气优先") ≤ 10 := by
  have h : UK._score_rank 10 (UK._rank_band "3.9+") (UK.rank_weight "名气优先") = 12 := by
    norm_num [UK._score_rank, UK._rank_band, UK.rank_weight]
  rw [h]
  norm_num

/-- C3 (amended): the weight-modulated rank contribution of `_score_rank`
is bounded not by the nominal 10-point cap but by `1.2` times it: for every
rank, band and `reputation_vs_value` answer it lies in `[0, 12]`, in both
the UK and the AU pipeline. -/
theorem C3_amended_rank_modulation_bounded :
    (∀ (rank : ℤ) (band : ℤ × ℤ) (p : String),
       0 ≤ UK._score_rank rank band (UK.rank_weight p)
       ∧ UK._score_rank rank band (UK.rank_weight p) ≤ 12)
    ∧ (∀ (rank : ℤ) (band : ℤ × ℤ) (p : String),
       0 ≤ AU._score_rank rank band (UK.rank_weight p)
       ∧ AU._score_rank rank band (UK.rank_weight p) ≤ 12) := by
  constructor
  · intro rank band p
    have hw := rank_weight_bounds p
    have h := uk_score_rank_bounds rank band (UK.rank_weight p) hw.1
    exact ⟨h.1, by nlinarith [h.2, hw.2]⟩
  · intro rank band p
    have hw := rank_weight_bounds p
    have h := au_score_rank_bounds rank band (UK.rank_weight p) hw.1
    exact ⟨h.1, by nlinarith [h.2, hw.2]⟩

/-! ## C9 — monotonicity of the interest-coverage dimension -/

theorem countP_any_append (selN strN : List String) (y : String) :
    selN.countP (fun s => strN.any (fun st => strIn s st) || strN.any (fun st => strIn st s))
    ≤ selN.countP (fun s => (strN ++ [y]).any (fun st => strIn s st)
        || (strN ++ [y]).any (fun st => strIn st s)) := by
  apply List.countP_mono_left
  intro a _ h
  simp only [List.any_append]
  rcases (Bool.or_eq_true _ _).mp h with h | h <;> simp [h]

theorem uk_score_interests_mono (sel str : List String) (x : String) :
    UK._score_interests sel str ≤ UK._score_interests sel (str ++ [x]) := by
  unfold UK._score_interests UK._normalize_strengths
  dsimp only
  split_ifs
  · exact le_refl _
  · rw [List.map_append]
    have hc := countP_any_append
      (sel.map (UK.normalizeStrength UK.synonym_groups))
      (str.map (UK.normalizeStrength UK.synonym_groups))
      (UK.normalizeStrength UK.synonym_groups x)
    have hcast :
        ((List.countP (fun s =>
            (str.map (UK.normalizeStrength UK.synonym_groups)).any (fun st => strIn s st)
            || (str.map (UK.normalizeStrength UK.synonym_groups)).any (fun st => strIn st s))
          (sel.map (UK.normalizeStrength UK.synonym_groups)) : ℚ))
        ≤ ((List.countP (fun s =>
            (str.map (UK.normalizeStrength UK.synonym_groups)
              ++ [UK.normalizeStrength UK.synonym_groups x]).any (fun st => strIn s st)
            || (str.map (UK.normalizeStrength UK.synonym_groups)
              ++ [UK.normalizeStrength UK.synonym_groups x]).any (fun st => strIn st s))
          (sel.map (UK.normalizeStrength UK.synonym_groups)) : ℚ)) := by
      exact_mod_cast hc
    have hk : (0 : ℚ) <
        ((max 1 (sel.map (UK.normalizeStrength UK.synonym_groups)).length : ℕ) : ℚ) := by
      have h1 : 1 ≤ max 1 (sel.map (UK.normalizeStrength UK.synonym_groups)).length :=
        le_max_left _ _
      exact_mod_cast lt_of_lt_of_le Nat.zero_lt_one h1
    apply min_le_min (le_refl _)
    apply mul_le_mul_of_nonneg_left _ (by norm_num)
    exact (div_le_div_iff_of_pos_right hk).mpr hcast

theorem au_score_interests_mono (sel str : List String) (x : String) :
    AU._score_interests sel str ≤ AU._score_interests sel (str ++ [x]) := by
  unfold AU._score_interests AU._normalize_strengths
  dsimp only
  split_ifs
  · exact le_refl _
  · rw [List.map_append]
    have hc := countP_any_append
      (sel.map (UK.normalizeStrength AU.synonym_groups))
      (str.map (UK.normalizeStrength AU.synonym_groups))
      (UK.normalizeStrength AU.synonym_groups x)
    have hcast :
        ((List.countP (fun s =>
            (str.map (UK.normalizeStrength AU.synonym_groups)).any (fun st => strIn s st)
            || (str.map (UK.normalizeStrength AU.synonym_groups)).any (fun st => strIn st s))
          (sel.map (UK.normalizeStrength AU.synonym_groups)) : ℚ))
        ≤ ((List.countP (fun s =>
            (str.map (UK.normalizeStrength AU.synonym_groups)
              ++ [UK.normalizeStrength AU.synonym_groups x]).any (fun st => strIn s st)
            || (str.map (UK.normalizeStrength AU.synonym_groups)
              ++ [UK.normalizeStrength AU.synonym_groups x]).any (fun st => strIn st s))
          (sel.map (UK.normalizeStrength AU.synonym_groups)) : ℚ)) := by
      exact_mod_cast hc
    have hk : (0 : ℚ) <
        ((max 1 (sel.map (UK.normalizeStrength AU.synonym_groups)).length : ℕ) : ℚ) := by
      have h1 : 1 ≤ max 1 (sel.map (UK.normalizeStrength AU.synonym_groups)).length :=
        le_max_left _ _
      exact_mod_cast lt_of_lt_of_le Nat.zero_lt_one h1
    apply min_le_min (le_refl _)
    apply mul_le_mul_of_nonneg_left _ (by norm_num)
    exact (div_le_div_iff_of_pos_right hk).mpr hcast

/-- C9: the interest/tag coverage dimension is monotone in the candidate's
tag set: for every fixed list of selected interests and every candidate
strengths list, appending one more strength never decreases the score
returned by `_score_interests`, in the UK, SG and AU pipelines alike. -/
theorem C9_score_interests_monotone :
    (∀ (sel str : List String) (x : String),
       UK._score_interests sel str ≤ UK._score_interests sel (str ++ [x]))
    ∧ (∀ (sel str : List String) (x : String),
       SG._score_interests sel str ≤ SG._score_interests sel (str ++ [x]))
    ∧ (∀ (sel str : List String) (x : String),
       AU._score_interests sel str ≤ AU._score_interests sel (str ++ [x])) :=
  ⟨uk_score_interests_mono,
   fun sel str x => uk_score_interests_mono sel str x,
   au_score_interests_mono⟩

/-! ## C2 — the last-resort guarantee -/

theorem mem_filter_country {docs : List Doc} {mkt : String} {d : Doc}
    (hd : d ∈ docs) (hc : d.countryStr = mkt) :
    docs.filter (fun x => x.countryStr == mkt) ≠ [] := by
  intro hnil
  have hm : d ∈ docs.filter (fun x => x.countryStr == mkt) :=
    List.mem_filter.mpr ⟨hd, by simp [hc]⟩
  rw [hnil] at hm
  exact absurd hm (List.not_mem_nil d)

theorem final_rank_resort_ne_nil {allm : List Doc} (hall : allm ≠ [])
    (msg : String) (st : List Doc × Bool × List String) :
    (final_rank_resort msg allm st).1 ≠ [] := by
  unfold final_rank_resort
  split_ifs with h1 h2
  · exact absurd (List.isEmpty_iff.mp h2) hall
  · exact take_ne_nil (stableSortBy_ne_nil _ hall) (by norm_num)
  · exact List.isEmpty_eq_false.mp (Bool.of_not_eq_true h1)

theorem uk_filter_stage_ne_nil (inp : Input) (docs : List Doc) (fb : Bool)
    (h : ∃ d ∈ docs, Doc.countryStr d = "United Kingdom") :
    (UK.uk_filter_stage inp docs fb).1 ≠ [] := by
  obtain ⟨d, hd, hc⟩ := h
  have hall : UK.uk_all docs ≠ [] := mem_filter_country hd hc
  unfold UK.uk_filter_stage
  exact final_rank_resort_ne_nil hall _ _

theorem sg_filter_stage_ne_nil (inp : Input) (docs : List Doc) (fb : Bool)
    (h : ∃ d ∈ docs, Doc.countryStr d = "Singapore") :
    (SG.sg_filter_stage inp docs fb).1 ≠ [] := by
  obtain ⟨d, hd, hc⟩ := h
  have hall : SG.sg_all docs ≠ [] := mem_filter_country hd hc
  unfold SG.sg_filter_stage
  exact final_rank_resort_ne_nil hall _ _

theorem au_filter_stage_ne_nil (inp : Input) (docs : List Doc)
    (h : ∃ d ∈ docs, Doc.countryStr d = "Australia") :
    (AU.au_filter_stage inp docs true).1 ≠ [] := by
  obtain ⟨d, hd, hc⟩ := h
  have hall : AU.au_all docs ≠ [] := mem_filter_country hd hc
  unfold AU.au_filter_stage
  dsimp only
  split_ifs with h1
  · exact final_rank_resort_ne_nil hall _ _
  · intro hnil
    apply h1
    have hfil : List.filter (AU.au_hard_pred inp) docs = [] := hnil
    simp [hfil]

/-- C2: with the fallback enabled (as every caller enables it), each market
pipeline returns a non-empty result list whenever the pool contains at
least one document of that pipeline's market — the fallback ladder plus
the last-resort selection guarantee at least one result even when the
hard-filter stage yields zero candidates. -/
theorem C2_last_resort_nonempty :
    (∀ (inp : Input) (docs : List Doc),
       (∃ d ∈ docs, Doc.countryStr d = "United Kingdom") →
       (UK.apply_uk_filters_and_score inp docs true).1 ≠ [])
    ∧ (∀ (inp : Input) (docs : List Doc),
       (∃ d ∈ docs, Doc.countryStr d = "Singapore") →
       (SG.apply_sg_filters_and_score inp docs true).1 ≠ [])
    ∧ (∀ (inp : Input) (docs : List Doc),
       (∃ d ∈ docs, Doc.countryStr d = "Australia") →
       (AU.apply_au_filters_and_score inp docs true).1 ≠ []) := by
  refine ⟨fun inp docs h => ?_, fun inp docs h => ?_, fun inp docs h => ?_⟩
  · unfold UK.apply_uk_filters_and_score
    exact stableSortBy_ne_nil _ (map_ne_nil (uk_filter_stage_ne_nil inp docs true h) _)
  · unfold SG.apply_sg_filters_and_score
    exact stableSortBy_ne_nil _ (map_ne_nil (sg_filter_stage_ne_nil inp docs true h) _)
  · unfold AU.apply_au_filters_and_score
    exact stableSortBy_ne_nil _ (map_ne_nil (au_filter_stage_ne_nil inp docs h) _)

/-- Witness for C2: a pool holding one document per market, on which every
hard filter fails for the UK document (a region limit that no document
city matches), so the fallback path is exercised. -/
theorem C2_last_resort_nonempty_witness :
    (∃ d ∈ [({ country := some "United Kingdom", city := some "Manchester" } : Doc)],
       Doc.countryStr d = "United Kingdom")
    ∧ (UK.apply_uk_filters_and_score { region_pref := "london" }
         [{ country := some "United Kingdom", city := some "Manchester" }] true).1 ≠ [] := by
  constructor
  · exact ⟨_, List.mem_singleton.mpr rfl, rfl⟩
  · exact C2_last_resort_nonempty.1 { region_pref := "london" }
      [{ country := some "United Kingdom", city := some "Manchester" }]
      ⟨_, List.mem_singleton.mpr rfl, rfl⟩

/-! ## C6 — fallback is not invoked when the hard filter is non-starving -/

/-- The input of the C6 counterexample: a USA-market profile whose strict
filters admit exactly one school. -/
def c6_inp : Input :=
  { target_country := "USA", interest_fields := ["engineering"],
    budget := "35万-40万", gpa_range := "3.9+" }

/-- A school passing the strict generic-market filters. -/
def c6_A : US.USchool :=
  { oid := "A", name := "Alpha", country := some "USA",
    strengths := ["engineering"], rank := some 10, tuition := some 50000 }

/-- A school passing only the loosened generic-market filters. -/
def c6_B : US.USchool :=
  { oid := "B", name := "Beta", country := some "USA",
    strengths := ["law"], rank := some 40, tuition := some 80000 }

/-- C6 (counterexample): the generic market relaxes its filters although
the strict (hard) filter stage yields one candidate: with `c6_inp` the
strict query returns exactly `c6_A`, yet the pipeline's filter stage
switches to loose mode (because fewer than five schools survived) and its
output contains `c6_B`, which fails the strict filters — contradicting the
claim that a non-empty hard-filter stage means no relaxation in every
pipeline. -/
theorem C6_counterexample :
    (US.us_strict_filtered c6_inp [c6_A, c6_B]).length = 1
    ∧ US.recommend_filter_stage c6_inp [c6_A, c6_B] = [c6_A, c6_B]
    ∧ US.mongoMatch (US.build_hard_filters c6_inp true) c6_B = false := by
  have hbf : US.build_hard_filters c6_inp false =
      { country := "USA", strengths_in := none, tuition_lte := 84000, rank_lte := 45 } := by
    have h1 : ((US.budget_map.lookup "35万-40万").getD 100000 : ℚ) = 56000 := rfl
    have h2 : ((US.gpa_rank_map.lookup "3.9+").getD 200 : ℚ) = 30 := rfl
    unfold US.build_hard_filters c6_inp
    dsimp only
    rw [h1, h2]
    norm_num [US.MongoFilters.mk.injEq]
  refine ⟨rfl, ?_, rfl⟩
  unfold US.recommend_filter_stage
  rw [hbf]
  rfl

/-- C6 (amended): in the three market pipelines the claim holds — whenever
the initial hard filter leaves at least one candidate, the fallback ladder
is not invoked and the returned fallback report is
`{applied := false, steps := []}`.  The generic market instead switches to
loosened filters whenever the strict result has fewer than five schools,
even when it is non-empty (see the counterexample). -/
theorem C6_amended_no_fallback_when_nonempty :
    (∀ (inp : Input) (docs : List Doc) (fb : Bool),
       docs.filter (UK.uk_hard_pred inp) ≠ [] →
       (UK.apply_uk_filters_and_score inp docs fb).2 = ⟨false, []⟩)
    ∧ (∀ (inp : Input) (docs : List Doc) (fb : Bool),
       docs.filter (SG.sg_hard_pred inp) ≠ [] →
       (SG.apply_sg_filters_and_score inp docs fb).2 = ⟨false, []⟩)
    ∧ (∀ (inp : Input) (docs : List Doc) (fb : Bool),
       docs.filter (AU.au_hard_pred inp) ≠ [] →
       (AU.apply_au_filters_and_score inp docs fb).2 = ⟨false, []⟩) := by
  refine ⟨fun inp docs fb h => ?_, fun inp docs fb h => ?_, fun inp docs fb h => ?_⟩
  · have hE : (docs.filter (UK.uk_hard_pred inp)).isEmpty = false := by simp [h]
    unfold UK.apply_uk_filters_and_score UK.uk_filter_stage final_rank_resort
    simp [hE]
  · have hE : (docs.filter (SG.sg_hard_pred inp)).isEmpty = false := by simp [h]
    unfold SG.apply_sg_filters_and_score SG.sg_filter_stage final_rank_resort
    simp [hE]
  · have hE : (docs.filter (AU.au_hard_pred inp)).isEmpty = false := by simp [h]
    unfold AU.apply_au_filters_and_score AU.au_filter_stage
    simp [hE]

/-- Witness for C6 (amended): a UK pool whose single document passes every
hard filter of the default profile, so `applied = false` with no steps. -/
theorem C6_amended_no_fallback_when_nonempty_witness :
    ([({ country := some "United Kingdom" } : Doc)].filter (UK.uk_hard_pred {}) ≠ [])
    ∧ (UK.apply_uk_filters_and_score {} [{ country := some "United Kingdom" }] true).2
        = ⟨false, []⟩ := by
  constructor
  · decide
  · exact C6_amended_no_fallback_when_nonempty.1 {} [{ country := some "United Kingdom" }]
      true (by decide)

/-! ## C8 — per-candidate explanation failure isolation -/

/-- The C8 failing input: a UK profile with no stated budget
(`budget_usd` missing/None reads as `0`). -/
def c8_inp : Input := { target_country := "United Kingdom", budget_usd := 0 }

/-- A UK school whose tuition exceeds the (zero) budget, making the UK
explanation generator divide by zero. -/
def c8_doc : Doc :=
  { oid := "uk2", name := "Gamma", country := some "United Kingdom",
    rank := some 100, tuition_usd := some 30000, city := some "London" }

/-- C8 (code evaluated at the failing input): with a zero budget and a
paying school, the UK `generate_school_explanations` raises
(`ZeroDivisionError` at the `over_pct` line, modeled as `none`), and since
the UK POST branch of `create_parent_evaluation` has no per-candidate
`try/except`, the whole per-candidate loop — and with it the request —
fails instead of degrading that one school's explanation to `[]`. -/
theorem C8_uk_explanation_divzero :
    UK.generate_school_explanations c8_doc c8_inp = none
    ∧ UK.uk_schools_with_explanations c8_inp [c8_doc] = none := by
  constructor <;> rfl

/-! ## C4 — do fallback rungs keep the still-unrelaxed filters? -/

/-- The C4 counterexample profile: an active London region limit together
with an active hard budget of 10000. -/
def c4_inp : Input :=
  { target_country := "United Kingdom", region_pref := "london",
    hard_budget_must_within := true, budget_usd := 10000 }

/-- A UK school outside the region limit and far above the budget. -/
def c4_doc : Doc :=
  { oid := "uk3", name := "Delta", country := some "United Kingdom",
    city := some "Manchester", rank := some 50, tuition_usd := some 100000 }

/-- C4 (counterexample): the UK fallback rung 1 relaxes the region limit by
refiltering the pool on the country alone, dropping the still-active hard
budget: on `c4_inp` only the region rung fires, yet the pipeline returns a
school whose tuition (100000) violates the unrelaxed hard budget (10000).
This contradicts the claim that every rung keeps all other active hard
filters in force. -/
theorem C4_counterexample :
    (UK.apply_uk_filters_and_score c4_inp [c4_doc] true).2.steps = ["放宽地域限制"]
    ∧ ((UK.apply_uk_filters_and_score c4_inp [c4_doc] true).1.map UK.Scored.tuition_usd)
        = [100000]
    ∧ c4_inp.hard_budget_must_within = true
    ∧ ¬ ((100000 : ℤ) ≤ c4_inp.budget_usd) := by
  refine ⟨rfl, rfl, rfl, by decide⟩

theorem mem_filter_if {l : List Doc} {p : Doc → Bool} {b : Bool} {d : Doc}
    (h : d ∈ (if b = true then l.filter p else l)) :
    d ∈ l ∧ (b = true → p d = true) := by
  by_cases hb : b = true
  · rw [if_pos hb] at h
    rcases List.mem_filter.mp h with ⟨h1, h2⟩
    exact ⟨h1, fun _ => h2⟩
  · rw [if_neg hb] at h
    exact ⟨h, fun hb' => absurd hb' hb⟩

/-- C4 (amended): the claimed rung invariant does not hold in general —
the UK and AU region/city rungs refilter the pool on the country alone, so
a rung's output can violate a still-active hard budget (see the
counterexample), and the SG rungs 3–5 can likewise drop a still-active
filter when an earlier rung was skipped by its `main_concern` /
`bond_acceptance` guard (rung 5 refilters on the country alone).  What
does hold, proved here, is that the first two SG rungs keep the
still-unrelaxed active hard filters in force: rung 1 (budget widening)
keeps the TG, bond and interview filters, and rung 2 (interview
relaxation) keeps the widened budget, TG and bond filters. -/
theorem C4_amended_sg_rungs_keep_filters :
    (∀ (inp : Input) (docs : List Doc) (st : List Doc × List String) (d : Doc),
       d ∈ (SG.sg_step1 inp docs st).1 →
       d ∈ st.1 ∨
         (Doc.countryStr d = "Singapore"
          ∧ Doc.tuitionVal d ≤ SG.sg_budget_expanded inp
          ∧ (inp.tg_must = true → d.tuition_grant_available = true)
          ∧ (inp.hard_refuse_bond = true → SG.Doc.bondZero d = true)
          ∧ (inp.hard_refuse_interview_or_portfolio = true →
               (d.interview_required || d.essay_or_portfolio_required) = false)))
    ∧ (∀ (inp : Input) (docs : List Doc) (st : List Doc × List String) (d : Doc),
       d ∈ (SG.sg_step2 inp docs st).1 →
       d ∈ st.1 ∨
         (Doc.countryStr d = "Singapore"
          ∧ (inp.hard_budget_must_within = true →
               Doc.tuitionVal d ≤ SG.sg_budget_expanded inp)
          ∧ (inp.tg_must = true → d.tuition_grant_available = true)
          ∧ (inp.hard_refuse_bond = true → SG.Doc.bondZero d = true))) := by
  constructor
  · intro inp docs st d h
    unfold SG.sg_step1 at h
    by_cases hc : (inp.hard_budget_must_within && inp.main_concern != "超预算") = true
    · rw [if_pos hc] at h
      dsimp only at h
      have h3 := mem_filter_if h
      have h2 := mem_filter_if h3.1
      have h1 := mem_filter_if h2.1
      have h0 := List.mem_filter.mp h1.1
      rcases Bool.and_eq_true _ _ |>.mp h0.2 with ⟨hcty, htuit⟩
      refine Or.inr ⟨by simpa using hcty, by simpa using htuit, h1.2, h2.2, ?_⟩
      intro hi
      have := h3.2 hi
      simpa using this
    · rw [if_neg hc] at h
      exact Or.inl h
  · intro inp docs st d h
    unfold SG.sg_step2 at h
    by_cases hc : (inp.hard_refuse_interview_or_portfolio && st.1.isEmpty
        && inp.main_concern != "需要面试") = true
    · rw [if_pos hc] at h
      dsimp only at h
      have h3 := mem_filter_if h
      have h2 := mem_filter_if h3.1
      have h1 := mem_filter_if h2.1
      have h0 := List.mem_filter.mp h1.1
      refine Or.inr ⟨by simpa using h0.2, fun hb => ?_, h2.2, h3.2⟩
      have := h1.2 hb
      simpa using this
    · rw [if_neg hc] at h
      exact Or.inl h

/-- Profile for the C4 witness: active hard budget and active TG filter. -/
def c4w_inp : Input :=
  { target_country := "Singapore", hard_budget_must_within := true,
    budget_usd := 10000, tg_must := true }

/-- SG document for the C4 witness: within the widened budget and with a
tuition grant. -/
def c4w_doc : Doc :=
  { oid := "sg1", name := "Epsilon", country := some "Singapore",
    rank := some 20, tuition_usd := some 5000, tuition_grant_available := true }

/-- Witness for C4 (amended), at a concrete firing of SG rung 1. -/
theorem C4_amended_sg_rungs_keep_filters_witness :
    c4w_doc ∈ (SG.sg_step1 c4w_inp [c4w_doc] ([], [])).1
    ∧ (c4w_doc ∈ (([] : List Doc), ([] : List String)).1 ∨
       (Doc.countryStr c4w_doc = "Singapore"
        ∧ Doc.tuitionVal c4w_doc ≤ SG.sg_budget_expanded c4w_inp
        ∧ (c4w_inp.tg_must = true → c4w_doc.tuition_grant_available = true)
        ∧ (c4w_inp.hard_refuse_bond = true → SG.Doc.bondZero c4w_doc = true)
        ∧ (c4w_inp.hard_refuse_interview_or_portfolio = true →
             (c4w_doc.interview_required || c4w_doc.essay_or_portfolio_required) = false))) := by
  have h1 : SG.sg_tolerance_pct c4w_inp = 0 := by
    unfold SG.sg_tolerance_pct
    rw [show strIn "10%" c4w_inp.budget_tolerance = false from rfl,
        show strIn "20%" c4w_inp.budget_tolerance = false from rfl]
    simp
  have h2 : SG.sg_effective_tolerance c4w_inp = 0.1 := by
    unfold SG.sg_effective_tolerance
    rw [h1]
    norm_num
  have hexp : SG.sg_budget_expanded c4w_inp = 11000 := by
    unfold SG.sg_budget_expanded pyInt
    rw [h2, show (c4w_inp.budget_usd : ℚ) = 10000 from rfl]
    norm_num
  have hmem : c4w_doc ∈ (SG.sg_step1 c4w_inp [c4w_doc] ([], [])).1 := by
    unfold SG.sg_step1
    rw [if_pos (show (c4w_inp.hard_budget_must_within
      && c4w_inp.main_concern != "超预算") = true from rfl)]
    dsimp only
    simp only [hexp]
    decide
  exact ⟨hmem, C4_amended_sg_rungs_keep_filters.1 c4w_inp [c4w_doc] ([], []) c4w_doc hmem⟩

/-! ### C5 — sort order of the four pipelines -/

/-- The market comparator is total. -/
theorem scoreSortLE_total (s1 : ℚ) (t1 r1 : ℤ) (s2 : ℚ) (t2 r2 : ℤ) :
    scoreSortLE s1 t1 r1 s2 t2 r2 || scoreSortLE s2 t2 r2 s1 t1 r1 := by
  unfold scoreSortLE
  split_ifs <;> simp_all <;> first | linarith | omega

/-- The market comparator is transitive. -/
theorem scoreSortLE_trans (s1 : ℚ) (t1 r1 : ℤ) (s2 : ℚ) (t2 r2 : ℤ)
    (s3 : ℚ) (t3 r3 : ℤ) (h1 : scoreSortLE s1 t1 r1 s2 t2 r2)
    (h2 : scoreSortLE s2 t2 r2 s3 t3 r3) : scoreSortLE s1 t1 r1 s3 t3 r3 := by
  unfold scoreSortLE at *
  split_ifs at * <;> simp_all <;> first | linarith | omega

/-- Profile for the C5 counterexample: the generic (USA) market with every
scoring dimension inactive, so every school scores 0. -/
def c5_inp : Input := { target_country := "USA" }

/-- First pooled school: higher tuition, worse rank. -/
def c5_A : US.USchool :=
  { oid := "a", name := "Alpha", country := some "USA",
    tuition := some 60000, rank := some 10 }

/-- Second pooled school: lower tuition, better rank. -/
def c5_B : US.USchool :=
  { oid := "b", name := "Beta", country := some "USA",
    tuition := some 50000, rank := some 5 }

/-- The candidate pool, higher-tuition school first. -/
def c5_docs : List US.USchool := [c5_A, c5_B]

/-- C5 counterexample: the generic-market ranking in
`recommend_schools_for_parent` sorts by score alone
(`key=lambda x: x[1], reverse=True`) with no tuition or rank tie-break:
two schools with equal scores stay in pool order even though the
first has the higher tuition (60000 vs 50000) and the worse rank
(10 vs 5), so the claimed ascending-tuition/ascending-rank tie-breaks
do not hold for the generic market. -/
theorem C5_counterexample :
    US.score_school c5_A c5_inp = US.score_school c5_B c5_inp
    ∧ c5_A.tuition = some 60000 ∧ c5_B.tuition = some 50000
    ∧ c5_A.rank = some 10 ∧ c5_B.rank = some 5
    ∧ (US.recommend_ranked c5_inp c5_docs).map (fun p => p.1.oid) = ["a", "b"] := by
  have hA : US.score_school c5_A c5_inp = 0 := by
    have h : US.us_total c5_inp c5_A = 0 + 0 + 0 + 0 + 0 + 0 + 0 + 0 + 0 := rfl
    show round2 (US.us_total c5_inp c5_A) = 0
    rw [h]; norm_num [round2]
  have hB : US.score_school c5_B c5_inp = 0 := by
    have h : US.us_total c5_inp c5_B = 0 + 0 + 0 + 0 + 0 + 0 + 0 + 0 + 0 := rfl
    show round2 (US.us_total c5_inp c5_B) = 0
    rw [h]; norm_num [round2]
  have h1 : (US.us_strict_filtered c5_inp c5_docs).length < 5 :=
    lt_of_le_of_lt (List.length_filter_le _ _) (by norm_num [c5_docs])
  have h2 : (c5_docs.filter
      (US.mongoMatch (US.build_hard_filters c5_inp false))).length < 5 :=
    lt_of_le_of_lt (List.length_filter_le _ _) (by norm_num [c5_docs])
  have hstage : US.recommend_filter_stage c5_inp c5_docs = [c5_A, c5_B] := by
    simp only [US.recommend_filter_stage]
    rw [if_pos h1, if_pos h2]
    decide
  have hrank : US.recommend_ranked c5_inp c5_docs = [(c5_A, 0), (c5_B, 0)] := by
    simp only [US.recommend_ranked, hstage, List.map_cons, List.map_nil]
    rw [hA, hB]
    decide
  refine ⟨hA.trans hB.symm, rfl, rfl, rfl, rfl, ?_⟩
  rw [hrank]
  decide

/-- C5 (amended): the three market pipelines sort by descending score with
ties broken by ascending tuition then ascending rank (their outputs are
`Pairwise`-sorted under `scoreSortLE`); the generic market sorts by
descending score only, stably, with no tuition or rank tie-break. -/
theorem C5_amended_sort_order :
    (∀ (inp : Input) (docs : List Doc) (fb : Bool),
       ((UK.apply_uk_filters_and_score inp docs fb).1).Pairwise
         (fun a b => scoreSortLE a.score a.tuition_usd a.rank
           b.score b.tuition_usd b.rank = true))
    ∧ (∀ (inp : Input) (docs : List Doc) (fb : Bool),
       ((SG.apply_sg_filters_and_score inp docs fb).1).Pairwise
         (fun a b => scoreSortLE a.score a.tuition_usd a.rank
           b.score b.tuition_usd b.rank = true))
    ∧ (∀ (inp : Input) (docs : List Doc) (fb : Bool),
       ((AU.apply_au_filters_and_score inp docs fb).1).Pairwise
         (fun a b => scoreSortLE a.score a.tuition_usd a.rank
           b.score b.tuition_usd b.rank = true))
    ∧ (∀ (inp : Input) (docs : List US.USchool),
       (US.recommend_ranked inp docs).Pairwise (fun a b => b.2 ≤ a.2)) := by
  refine ⟨?_, ?_, ?_, ?_⟩
  · intro inp docs fb
    exact pairwise_stableSortBy
      (fun (a b : UK.Scored) => scoreSortLE a.score a.tuition_usd a.rank
        b.score b.tuition_usd b.rank)
      (fun a b => scoreSortLE_total a.score a.tuition_usd a.rank
        b.score b.tuition_usd b.rank)
      (fun a b c => scoreSortLE_trans a.score a.tuition_usd a.rank
        b.score b.tuition_usd b.rank c.score c.tuition_usd c.rank)
      (((UK.uk_filter_stage inp docs fb).1).map (UK.uk_score_doc inp))
  · intro inp docs fb
    exact pairwise_stableSortBy
      (fun (a b : SG.Scored) => scoreSortLE a.score a.tuition_usd a.rank
        b.score b.tuition_usd b.rank)
      (fun a b => scoreSortLE_total a.score a.tuition_usd a.rank
        b.score b.tuition_usd b.rank)
      (fun a b c => scoreSortLE_trans a.score a.tuition_usd a.rank
        b.score b.tuition_usd b.rank c.score c.tuition_usd c.rank)
      (((SG.sg_filter_stage inp docs fb).1).map (SG.sg_score_doc inp))
  · intro inp docs fb
    exact pairwise_stableSortBy
      (fun (a b : AU.Scored) => scoreSortLE a.score a.tuition_usd a.rank
        b.score b.tuition_usd b.rank)
      (fun a b => scoreSortLE_total a.score a.tuition_usd a.rank
        b.score b.tuition_usd b.rank)
      (fun a b c => scoreSortLE_trans a.score a.tuition_usd a.rank
        b.score b.tuition_usd b.rank c.score c.tuition_usd c.rank)
      (((AU.au_filter_stage inp docs fb).1).map (AU.au_score_doc inp))
  · intro inp docs
    have h := pairwise_stableSortBy
      (fun (a b : US.USchool × ℚ) => decide (b.2 ≤ a.2))
      (fun a b => by rcases le_total b.2 a.2 with h | h <;> simp [h])
      (fun a b c hab hbc => by
        simp only [decide_eq_true_eq] at *
        exact le_trans hbc hab)
      ((US.recommend_filter_stage inp docs).map
        (fun school => (school, US.score_school school inp)))
    exact (h.imp (fun hd => of_decide_eq_true hd))

/-! ### C10 — market purity of the three pipelines -/

/-- Every member of `l` comes from the pool `docs` and belongs to the
market `mkt`. -/
def fromMarket (mkt : String) (docs l : List Doc) : Prop :=
  ∀ d ∈ l, d ∈ docs ∧ d.countryStr = mkt

theorem fromMarket_sub {mkt : String} {docs l l2 : List Doc}
    (hsub : l2 ⊆ l) (h : fromMarket mkt docs l) : fromMarket mkt docs l2 :=
  fun d hd => h d (hsub hd)

theorem fromMarket_nil (mkt : String) (docs : List Doc) : fromMarket mkt docs [] :=
  fun d hd => absurd hd (List.not_mem_nil d)

theorem subset_stableSortBy (le : α → α → Bool) (l : List α) :
    stableSortBy le l ⊆ l :=
  fun a ha => (mem_stableSortBy le l a).mp ha

theorem fromMarket_filter_of {mkt : String} (docs : List Doc) (p : Doc → Bool)
    (hp : ∀ d, p d = true → d.countryStr = mkt) :
    fromMarket mkt docs (docs.filter p) :=
  fun d hd => ⟨(List.mem_filter.mp hd).1, hp d (List.mem_filter.mp hd).2⟩

theorem fromMarket_country (mkt : String) (docs : List Doc) :
    fromMarket mkt docs (docs.filter (fun d => d.countryStr == mkt)) :=
  fromMarket_filter_of docs _ (fun d hd => by simpa using hd)

/-- `final_rank_resort` preserves market purity: its output is the incoming
list or the ten best-ranked members of the market pool. -/
theorem fromMarket_final_rank_resort {mkt : String} {docs : List Doc}
    (msg : String) (allm : List Doc) (st : List Doc × Bool × List String)
    (h1 : fromMarket mkt docs st.1) (h2 : fromMarket mkt docs allm) :
    fromMarket mkt docs (final_rank_resort msg allm st).1 := by
  unfold final_rank_resort
  split_ifs with ha hb
  · exact h1
  · exact fromMarket_sub
      (List.Subset.trans (List.take_subset _ _) (subset_stableSortBy _ _)) h2
  · exact h1

/-- A UK hard-filter survivor is a United Kingdom document. -/
theorem uk_hard_pred_country {inp : Input} {d : Doc}
    (h : UK.uk_hard_pred inp d = true) : d.countryStr = "United Kingdom" := by
  simp only [UK.uk_hard_pred, Bool.and_eq_true] at h
  simpa using h.1.1.1.1.1

/-- An SG hard-filter survivor is a Singapore document. -/
theorem sg_hard_pred_country {inp : Input} {d : Doc}
    (h : SG.sg_hard_pred inp d = true) : d.countryStr = "Singapore" := by
  simp only [SG.sg_hard_pred, Bool.and_eq_true] at h
  simpa using h.1.1.1.1

/-- An AU hard-filter survivor is an Australia document. -/
theorem au_hard_pred_country {inp : Input} {d : Doc}
    (h : AU.au_hard_pred inp d = true) : d.countryStr = "Australia" := by
  simp only [AU.au_hard_pred, Bool.and_eq_true] at h
  simpa using h.1.1.1.1

theorem uk_step1_pure (inp : Input) (docs : List Doc) (st : List Doc × List String)
    (ih : fromMarket "United Kingdom" docs st.1) :
    fromMarket "United Kingdom" docs (UK.uk_step1 inp docs st).1 := by
  unfold UK.uk_step1
  split_ifs with h
  · exact fromMarket_country _ _
  · exact ih

theorem uk_step2_pure (inp : Input) (docs : List Doc) (st : List Doc × List String)
    (ih : fromMarket "United Kingdom" docs st.1) :
    fromMarket "United Kingdom" docs (UK.uk_step2 inp docs st).1 := by
  unfold UK.uk_step2
  split_ifs with h
  · exact fromMarket_filter_of _ _ (fun d hd => by
      simpa using ((Bool.and_eq_true _ _).mp hd).1)
  · exact ih

theorem uk_step3_pure (inp : Input) (docs : List Doc) (st : List Doc × List String)
    (ih : fromMarket "United Kingdom" docs st.1) :
    fromMarket "United Kingdom" docs (UK.uk_step3 inp docs st).1 := by
  unfold UK.uk_step3
  split_ifs <;>
    first
      | exact ih
      | (intro d hd
         simp only [UK.uk_all, List.mem_filter, Bool.and_eq_true, beq_iff_eq,
           decide_eq_true_eq] at hd
         exact ⟨by tauto, by tauto⟩)

theorem uk_step4_pure (inp : Input) (docs : List Doc) (st : List Doc × List String)
    (ih : fromMarket "United Kingdom" docs st.1) :
    fromMarket "United Kingdom" docs (UK.uk_step4 inp docs st).1 := by
  unfold UK.uk_step4
  split_ifs with h
  · exact fromMarket_country _ _
  · exact ih

theorem uk_step5_pure (inp : Input) (docs : List Doc) (st : List Doc × List String)
    (ih : fromMarket "United Kingdom" docs st.1) :
    fromMarket "United Kingdom" docs (UK.uk_step5 inp docs st).1 := by
  unfold UK.uk_step5
  split_ifs with h
  · exact fromMarket_country _ _
  · exact ih

theorem uk_step6_pure (inp : Input) (docs : List Doc) (st : List Doc × List String)
    (ih : fromMarket "United Kingdom" docs st.1) :
    fromMarket "United Kingdom" docs (UK.uk_step6 inp docs st).1 := by
  simp only [UK.uk_step6]
  split_ifs with h hE hT
  · exact ih
  · exact fromMarket_sub
      (List.Subset.trans (List.take_subset _ _)
        (List.Subset.trans (subset_stableSortBy _ _)
          (List.Subset.trans (List.take_subset _ _) (subset_stableSortBy _ _))))
      (fromMarket_country _ _)
  · exact fromMarket_sub
      (List.Subset.trans (List.take_subset _ _)
        (List.Subset.trans (subset_stableSortBy _ _)
          (List.Subset.trans (fun a ha => (List.mem_filter.mp ha).1)
            (subset_stableSortBy _ _))))
      (fromMarket_country _ _)
  · exact ih

theorem uk_filter_stage_pure (inp : Input) (docs : List Doc) (fb : Bool) :
    fromMarket "United Kingdom" docs (UK.uk_filter_stage inp docs fb).1 := by
  have h6 := uk_step6_pure inp docs _ (uk_step5_pure inp docs _ (uk_step4_pure inp docs _
    (uk_step3_pure inp docs _ (uk_step2_pure inp docs _
      (uk_step1_pure inp docs ([], []) (fromMarket_nil _ _))))))
  simp only [UK.uk_filter_stage]
  apply fromMarket_final_rank_resort
  · split_ifs with hc
    · exact h6
    · exact fromMarket_filter_of _ _ (fun d hd => uk_hard_pred_country hd)
  · exact fromMarket_country _ _

theorem sg_step1_pure (inp : Input) (docs : List Doc) (st : List Doc × List String)
    (ih : fromMarket "Singapore" docs st.1) :
    fromMarket "Singapore" docs (SG.sg_step1 inp docs st).1 := by
  unfold SG.sg_step1
  split_ifs <;>
    first
      | exact ih
      | (intro d hd
         simp only [SG.sg_all, List.mem_filter, Bool.and_eq_true, beq_iff_eq,
           decide_eq_true_eq] at hd
         exact ⟨by tauto, by tauto⟩)

theorem sg_step2_pure (inp : Input) (docs : List Doc) (st : List Doc × List String)
    (ih : fromMarket "Singapore" docs st.1) :
    fromMarket "Singapore" docs (SG.sg_step2 inp docs st).1 := by
  unfold SG.sg_step2
  split_ifs <;>
    first
      | exact ih
      | (intro d hd
         simp only [SG.sg_all, List.mem_filter, Bool.and_eq_true, beq_iff_eq,
           decide_eq_true_eq] at hd
         exact ⟨by tauto, by tauto⟩)

theorem sg_step3_pure (inp : Input) (docs : List Doc) (st : List Doc × List String)
    (ih : fromMarket "Singapore" docs st.1) :
    fromMarket "Singapore" docs (SG.sg_step3 inp docs st).1 := by
  unfold SG.sg_step3
  split_ifs <;>
    first
      | exact ih
      | (intro d hd
         simp only [SG.sg_all, List.mem_filter, Bool.and_eq_true, beq_iff_eq,
           decide_eq_true_eq] at hd
         exact ⟨by tauto, by tauto⟩)

theorem sg_step4_pure (inp : Input) (docs : List Doc) (st : List Doc × List String)
    (ih : fromMarket "Singapore" docs st.1) :
    fromMarket "Singapore" docs (SG.sg_step4 inp docs st).1 := by
  unfold SG.sg_step4
  split_ifs <;>
    first
      | exact ih
      | (intro d hd
         simp only [SG.sg_all, List.mem_filter, Bool.and_eq_true, beq_iff_eq,
           decide_eq_true_eq] at hd
         exact ⟨by tauto, by tauto⟩)

theorem sg_step5_pure (inp : Input) (docs : List Doc) (st : List Doc × List String)
    (ih : fromMarket "Singapore" docs st.1) :
    fromMarket "Singapore" docs (SG.sg_step5 inp docs st).1 := by
  unfold SG.sg_step5
  split_ifs with h
  · exact fromMarket_country _ _
  · exact ih

theorem sg_step6_pure (inp : Input) (docs : List Doc) (st : List Doc × List String)
    (ih : fromMarket "Singapore" docs st.1) :
    fromMarket "Singapore" docs (SG.sg_step6 inp docs st).1 := by
  simp only [SG.sg_step6]
  split_ifs with h hE hT
  · exact ih
  · exact fromMarket_sub
      (List.Subset.trans (List.take_subset _ _)
        (List.Subset.trans (subset_stableSortBy _ _)
          (List.Subset.trans (List.take_subset _ _) (subset_stableSortBy _ _))))
      (fromMarket_country _ _)
  · exact fromMarket_sub
      (List.Subset.trans (List.take_subset _ _)
        (List.Subset.trans (subset_stableSortBy _ _)
          (List.Subset.trans (fun a ha => (List.mem_filter.mp ha).1)
            (subset_stableSortBy _ _))))
      (fromMarket_country _ _)
  · exact ih

theorem sg_filter_stage_pure (inp : Input) (docs : List Doc) (fb : Bool) :
    fromMarket "Singapore" docs (SG.sg_filter_stage inp docs fb).1 := by
  have h6 := sg_step6_pure inp docs _ (sg_step5_pure inp docs _ (sg_step4_pure inp docs _
    (sg_step3_pure inp docs _ (sg_step2_pure inp docs _
      (sg_step1_pure inp docs ([], []) (fromMarket_nil _ _))))))
  simp only [SG.sg_filter_stage]
  apply fromMarket_final_rank_resort
  · split_ifs with hc
    · exact h6
    · exact fromMarket_filter_of _ _ (fun d hd => sg_hard_pred_country hd)
  · exact fromMarket_country _ _

theorem au_step1_pure (inp : Input) (docs : List Doc) (st : List Doc × List String)
    (ih : fromMarket "Australia" docs st.1) :
    fromMarket "Australia" docs (AU.au_step1 inp docs st).1 := by
  unfold AU.au_step1
  split_ifs with h
  · exact fromMarket_country _ _
  · exact ih

theorem au_step2_pure (inp : Input) (docs : List Doc) (st : List Doc × List String)
    (ih : fromMarket "Australia" docs st.1) :
    fromMarket "Australia" docs (AU.au_step2 inp docs st).1 := by
  unfold AU.au_step2
  split_ifs with h
  · exact fromMarket_filter_of _ _ (fun d hd => by
      simpa using ((Bool.and_eq_true _ _).mp hd).1)
  · exact ih

theorem au_step3_pure (inp : Input) (docs : List Doc) (st : List Doc × List String)
    (ih : fromMarket "Australia" docs st.1) :
    fromMarket "Australia" docs (AU.au_step3 inp docs st).1 := by
  unfold AU.au_step3
  split_ifs <;>
    first
      | exact ih
      | (intro d hd
         simp only [AU.au_all, List.mem_filter, Bool.and_eq_true, beq_iff_eq,
           decide_eq_true_eq] at hd
         exact ⟨by tauto, by tauto⟩)

theorem au_step4_pure (inp : Input) (docs : List Doc) (st : List Doc × List String)
    (ih : fromMarket "Australia" docs st.1) :
    fromMarket "Australia" docs (AU.au_step4 inp docs st).1 := by
  unfold AU.au_step4
  split_ifs with h
  · exact fromMarket_country _ _
  · exact ih

theorem au_step5_pure (inp : Input) (docs : List Doc) (st : List Doc × List String)
    (ih : fromMarket "Australia" docs st.1) :
    fromMarket "Australia" docs (AU.au_step5 inp docs st).1 := by
  simp only [AU.au_step5]
  split_ifs with h hE
  · exact fromMarket_nil _ _
  · exact fromMarket_sub
      (List.Subset.trans (List.take_subset _ _)
        (List.Subset.trans (subset_stableSortBy _ _)
          (List.Subset.trans (List.take_subset _ _) (subset_stableSortBy _ _))))
      (fromMarket_country _ _)
  · exact ih

theorem au_filter_stage_pure (inp : Input) (docs : List Doc) (fb : Bool) :
    fromMarket "Australia" docs (AU.au_filter_stage inp docs fb).1 := by
  have h5 := au_step5_pure inp docs _ (au_step4_pure inp docs _ (au_step3_pure inp docs _
    (au_step2_pure inp docs _ (au_step1_pure inp docs ([], []) (fromMarket_nil _ _)))))
  simp only [AU.au_filter_stage]
  split_ifs with hc
  · apply fromMarket_final_rank_resort
    · exact h5
    · exact fromMarket_country _ _
  · exact fromMarket_filter_of _ _ (fun d hd => au_hard_pred_country hd)

/-- C10: market purity invariant — every result of
`apply_uk_filters_and_score`, `apply_sg_filters_and_score` and
`apply_au_filters_and_score` (normal path, every fallback rung and the
last-resort pool alike) is the scoring record of a pooled document whose
country equals that pipeline's market country; foreign documents never
appear in the output. -/
theorem C10_market_purity :
    (∀ (inp : Input) (docs : List Doc) (fb : Bool) (s : UK.Scored),
        s ∈ (UK.apply_uk_filters_and_score inp docs fb).1 →
        ∃ d, d ∈ docs ∧ d.countryStr = "United Kingdom" ∧ s = UK.uk_score_doc inp d)
    ∧ (∀ (inp : Input) (docs : List Doc) (fb : Bool) (s : SG.Scored),
        s ∈ (SG.apply_sg_filters_and_score inp docs fb).1 →
        ∃ d, d ∈ docs ∧ d.countryStr = "Singapore" ∧ s = SG.sg_score_doc inp d)
    ∧ (∀ (inp : Input) (docs : List Doc) (fb : Bool) (s : AU.Scored),
        s ∈ (AU.apply_au_filters_and_score inp docs fb).1 →
        ∃ d, d ∈ docs ∧ d.countryStr = "Australia" ∧ s = AU.au_score_doc inp d) := by
  refine ⟨?_, ?_, ?_⟩
  · intro inp docs fb s hs
    have hs2 := subset_stableSortBy
      (fun (a b : UK.Scored) => scoreSortLE a.score a.tuition_usd a.rank
        b.score b.tuition_usd b.rank)
      (((UK.uk_filter_stage inp docs fb).1).map (UK.uk_score_doc inp)) hs
    rcases List.mem_map.mp hs2 with ⟨d, hd, hds⟩
    rcases uk_filter_stage_pure inp docs fb d hd with ⟨h1, h2⟩
    exact ⟨d, h1, h2, hds.symm⟩
  · intro inp docs fb s hs
    have hs2 := subset_stableSortBy
      (fun (a b : SG.Scored) => scoreSortLE a.score a.tuition_usd a.rank
        b.score b.tuition_usd b.rank)
      (((SG.sg_filter_stage inp docs fb).1).map (SG.sg_score_doc inp)) hs
    rcases List.mem_map.mp hs2 with ⟨d, hd, hds⟩
    rcases sg_filter_stage_pure inp docs fb d hd with ⟨h1, h2⟩
    exact ⟨d, h1, h2, hds.symm⟩
  · intro inp docs fb s hs
    have hs2 := subset_stableSortBy
      (fun (a b : AU.Scored) => scoreSortLE a.score a.tuition_usd a.rank
        b.score b.tuition_usd b.rank)
      (((AU.au_filter_stage inp docs fb).1).map (AU.au_score_doc inp)) hs
    rcases List.mem_map.mp hs2 with ⟨d, hd, hds⟩
    rcases au_filter_stage_pure inp docs fb d hd with ⟨h1, h2⟩
    exact ⟨d, h1, h2, hds.symm⟩

/-- Profile for the C10 witness: the default profile (no hard filters). -/
def c10w_inp : Input := {}

/-- A United Kingdom document passing the UK hard filter. -/
def c10w_doc : Doc :=
  { oid := "uk1", name := "UCL", country := some "United Kingdom" }

/-- A foreign document mixed into the pool. -/
def c10w_foreign : Doc :=
  { oid := "fr1", name := "Sorbonne", country := some "France" }

/-- The mixed candidate pool for the C10 witness. -/
def c10w_docs : List Doc := [c10w_foreign, c10w_doc]

/-- Witness for C10, at a concrete UK run over a mixed pool. -/
theorem C10_market_purity_witness :
    UK.uk_score_doc c10w_inp c10w_doc
      ∈ (UK.apply_uk_filters_and_score c10w_inp c10w_docs true).1
    ∧ ∃ d, d ∈ c10w_docs ∧ d.countryStr = "United Kingdom"
        ∧ UK.uk_score_doc c10w_inp c10w_doc = UK.uk_score_doc c10w_inp d := by
  have hstage : (UK.uk_filter_stage c10w_inp c10w_docs true).1 = [c10w_doc] := by decide
  have hmem : UK.uk_score_doc c10w_inp c10w_doc
      ∈ (UK.apply_uk_filters_and_score c10w_inp c10w_docs true).1 := by
    show UK.uk_score_doc c10w_inp c10w_doc
      ∈ stableSortBy
          (fun a b => scoreSortLE a.score a.tuition_usd a.rank
            b.score b.tuition_usd b.rank)
          (((UK.uk_filter_stage c10w_inp c10w_docs true).1).map
            (UK.uk_score_doc c10w_inp))
    rw [hstage]
    exact List.mem_singleton.mpr rfl
  exact ⟨hmem, C10_market_purity.1 c10w_inp c10w_docs true _ hmem⟩

/-! ### C1 — range and decomposition of the returned total scores -/

/-- Profile for the C1 counterexample: every AU scoring dimension at its
maximum, with the reputation preference inflating the rank dimension. -/
def c1_inp : Input :=
  { target_country := "Australia",
    academic_band := "3.9+",
    interests := ["cs"],
    reputation_vs_value := "名气优先",
    budget_usd := 50000,
    wil_preference := "必须",
    career_focus := "就业口碑",
    go8_preference := "强烈偏好",
    city_preferences := ["sydney"],
    psw_importance := "非常在意",
    english_readiness := "已达标",
    intl_community_importance := "重要",
    scholarship_importance := "很重要",
    study_length_preference := "越短越好",
    intake_preference := "越快越好（6–12个月内）" }

/-- An AU document maximal in every scoring dimension for `c1_inp`. -/
def c1_doc : Doc :=
  { oid := "au1", name := "UNSW", country := some "Australia",
    rank := some 30, tuition_usd := some 40000,
    strengths := ["cs"], city := some "Sydney",
    work_integrated_learning := true, placement_rate := some 1,
    group_of_eight := true, post_study_visa_years := some 4,
    requires_english_test := true,
    intlRate := some 1, scholarship_available := true,
    study_length_years := some 3, intakes := some "Feb and Jul" }

/-- C1 counterexample: the AU pipeline returns total score 102 for
`c1_doc` under `c1_inp` — the rank dimension is worth 10 × 1.2 = 12 under
the reputation preference, and the twelve AU dimension maxima
12+20+10+10+8+6+8+6+6+6+5+5 add up to 102, outside the claimed [0, 100]. -/
theorem C1_counterexample :
    ((AU.apply_au_filters_and_score c1_inp [c1_doc] true).1).map AU.Scored.score = [102]
    ∧ ¬ ((102 : ℚ) ≤ 100) := by
  have e : AU.au_total c1_inp c1_doc
      = 10 * 1.2
        + min 20 (20 * (((1 : ℕ) : ℚ) / ((1 : ℕ) : ℚ)))
        + 10
        + (7 + min 3 (1 * 3 * 1.2))
        + 8
        + 6
        + 8 * ((max 2 (min 4 (4 : ℚ)) - 2) / 2)
        + 6
        + 6 * ((max 0.1 (min 0.6 (1 : ℚ)) - 0.1) / 0.5)
        + 6
        + (if (3 : ℚ) ≤ 3.5 then (5 : ℚ) else max 2 (5 - ((3 : ℚ) - 3.5) * 2))
        + 5 := rfl
  have htot : AU.au_total c1_inp c1_doc = 102 := by
    rw [e, if_pos (show (3 : ℚ) ≤ 3.5 by norm_num)]
    rw [show min (4 : ℚ) 4 = 4 from min_self 4,
        show max (2 : ℚ) 4 = 4 from by rw [max_eq_right]; norm_num,
        show min (0.6 : ℚ) 1 = 0.6 from by rw [min_eq_left]; norm_num,
        show max (0.1 : ℚ) 0.6 = 0.6 from by rw [max_eq_right]; norm_num,
        show min (3 : ℚ) (1 * 3 * 1.2) = 3 from by rw [min_eq_left]; norm_num,
        show min (20 : ℚ) (20 * (((1 : ℕ) : ℚ) / ((1 : ℕ) : ℚ))) = 20 from by
          rw [min_eq_right] <;> rw [Nat.cast_one] <;> norm_num]
    norm_num
  have hsc : round2 (AU.au_total c1_inp c1_doc) = 102 := by
    rw [htot]; norm_num [round2]
  have hstage : (AU.au_filter_stage c1_inp [c1_doc] true).1 = [c1_doc] := by decide
  constructor
  · show (stableSortBy
        (fun a b => scoreSortLE a.score a.tuition_usd a.rank
          b.score b.tuition_usd b.rank)
        (((AU.au_filter_stage c1_inp [c1_doc] true).1).map
          (AU.au_score_doc c1_inp))).map AU.Scored.score = [102]
    rw [hstage]
    show [(AU.au_score_doc c1_inp c1_doc).score] = [102]
    rw [show (AU.au_score_doc c1_inp c1_doc).score
          = round2 (AU.au_total c1_inp c1_doc) from rfl, hsc]
  · norm_num

/-- C1 (amended): every market's returned score equals the per-dimension
total rounded to two decimals, but the attainable ranges are [0, 99] for
the UK pipeline, [0, 102] for the SG and AU pipelines (the rank dimension
is modulated up to 12 under the reputation preference, and SG/AU dimension
maxima add up to 102), and [0, 95] for the generic pipeline; AU
nonnegativity needs a nonnegative placement rate, and the generic bounds
need a nonnegative rank, both of which hold for real data. -/
theorem C1_amended_score_totals :
    (∀ (inp : Input) (d : Doc),
       (UK.uk_score_doc inp d).score = round2 (UK.uk_total inp d)
       ∧ 0 ≤ (UK.uk_score_doc inp d).score ∧ (UK.uk_score_doc inp d).score ≤ 99)
    ∧ (∀ (inp : Input) (d : Doc),
       (SG.sg_score_doc inp d).score = round2 (SG.sg_total inp d)
       ∧ 0 ≤ (SG.sg_score_doc inp d).score ∧ (SG.sg_score_doc inp d).score ≤ 102)
    ∧ (∀ (inp : Input) (d : Doc),
       (AU.au_score_doc inp d).score = round2 (AU.au_total inp d)
       ∧ (AU.au_score_doc inp d).score ≤ 102
       ∧ (0 ≤ rateVal d.placement_rate → 0 ≤ (AU.au_score_doc inp d).score))
    ∧ (∀ (inp : Input) (s : US.USchool),
       US.score_school s inp = round2 (US.us_total inp s)
       ∧ ((∀ r, s.rankTruthy? = some r → 0 ≤ r) →
            0 ≤ US.score_school s inp ∧ US.score_school s inp ≤ 95)) := by
  refine ⟨?_, ?_, ?_, ?_⟩
  · intro inp d
    have hb := uk_total_bounds inp d
    refine ⟨rfl, ?_, ?_⟩
    · show (0 : ℚ) ≤ round2 (UK.uk_total inp d)
      exact_mod_cast intCast_le_round2 (n := 0) (by exact_mod_cast hb.1)
    · show round2 (UK.uk_total inp d) ≤ 99
      exact_mod_cast round2_le_intCast (n := 99) (by exact_mod_cast hb.2)
  · intro inp d
    have hb := sg_total_bounds inp d
    refine ⟨rfl, ?_, ?_⟩
    · show (0 : ℚ) ≤ round2 (SG.sg_total inp d)
      exact_mod_cast intCast_le_round2 (n := 0) (by exact_mod_cast hb.1)
    · show round2 (SG.sg_total inp d) ≤ 102
      exact_mod_cast round2_le_intCast (n := 102) (by exact_mod_cast hb.2)
  · intro inp d
    have hb := au_total_bounds inp d
    refine ⟨rfl, ?_, ?_⟩
    · show round2 (AU.au_total inp d) ≤ 102
      exact_mod_cast round2_le_intCast (n := 102) (by exact_mod_cast hb.1)
    · intro hr
      show (0 : ℚ) ≤ round2 (AU.au_total inp d)
      exact_mod_cast intCast_le_round2 (n := 0) (by exact_mod_cast hb.2 hr)
  · intro inp s
    refine ⟨rfl, ?_⟩
    intro hr
    have hb := us_total_bounds inp s hr
    constructor
    · show (0 : ℚ) ≤ round2 (US.us_total inp s)
      exact_mod_cast intCast_le_round2 (n := 0) (by exact_mod_cast hb.1)
    · show round2 (US.us_total inp s) ≤ 95
      exact_mod_cast round2_le_intCast (n := 95) (by exact_mod_cast hb.2)

/-- A generic-market school with a positive rank, for the C1 witness. -/
def c1w_us : US.USchool :=
  { oid := "us1", name := "MIT", country := some "USA", rank := some 10 }

/-- Witness for C1 (amended), discharging the AU placement-rate and
generic-market rank hypotheses at concrete inputs. -/
theorem C1_amended_score_totals_witness :
    0 ≤ rateVal c1_doc.placement_rate
    ∧ 0 ≤ (AU.au_score_doc c1_inp c1_doc).score
    ∧ (∀ r, c1w_us.rankTruthy? = some r → 0 ≤ r)
    ∧ 0 ≤ US.score_school c1w_us c1_inp ∧ US.score_school c1w_us c1_inp ≤ 95 := by
  have h1 : 0 ≤ rateVal c1_doc.placement_rate := by decide
  have h2 : ∀ r, c1w_us.rankTruthy? = some r → 0 ≤ r := by
    intro r hr
    have h : some (10 : ℤ) = some r := hr
    injection h with h
    omega
  have h3 := (C1_amended_score_totals.2.2.2 c1_inp c1w_us).2 h2
  exact ⟨h1, (C1_amended_score_totals.2.2.1 c1_inp c1_doc).2.2 h1, h2, h3.1, h3.2⟩

end UniMatch
